import Mathlib

/-!
Verification of the SIGAT backend's audit-trail and compliance-warning core.

This file gives a shallow embedding, in Lean 4, of the pure logic of:
  * `software/version_utils.py` (version parsing/comparison, vulnerability
    scanning, warning reconciliation);
  * `auditing/hardware_checker.py` (hardware-obsolescence evaluation);
  * `auditing/models.py` (the `HardwareObsolescenceRules` singleton);
  * `auditing/signals.py` (change diffing and audit-log recording);
  * `auditing/views.py` (`agent_hardware_report` ingestion pipeline),
and proves or refutes the specification claims about them.

Modelling conventions:
  * Django rows are Lean structures; tables are Lean lists; the database
    is a structure of tables.  Auto-increment primary keys are modelled by
    an explicit sequence counter.
  * Python floats (`FloatField`) are modelled as rationals `ℚ`; none of the
    verified properties depends on binary floating-point rounding.
  * Python `str` is `String`.  `None`-able values are `Option`s.  Python
    truthiness (`if x:`) is spelled out at each use site (`None`, `""`,
    `0` and `[]` are falsy).
  * Fallible operations (database writes that can raise, bodies of
    `try`/`except`, bodies of `transaction.atomic()`) live in
    `Except String`; `transaction.atomic` + `except` is modelled by
    matching on the `Except` value and keeping the pre-transaction state
    on `.error` (rollback).
  * Unicode-only lexical edge cases of CPython (non-ASCII digits matched
    by `\d`, underscore digit grouping accepted by `int()`, the exact
    whitespace set of `str.strip`) are not modelled; all claims are about
    ASCII version strings.
-/

/-! ## Version utilities (`software/version_utils.py`) -/

/-- `int(...)` of a string of ASCII digits. -/
def digitsToNat (ds : List Char) : Nat :=
  ds.foldl (fun a c => 10 * a + (c.toNat - 48)) 0

/-- An ASCII decimal digit (Python `\d` restricted to ASCII). -/
def isAsciiDigit (c : Char) : Bool :=
  '0' ≤ c && c ≤ '9'

/-- ASCII lowercasing of one character (`str.lower`, ASCII fragment). -/
def asciiLower (c : Char) : Char :=
  if 'A' ≤ c && c ≤ 'Z' then Char.ofNat (c.toNat + 32) else c

/-- Whitespace stripped by `str.strip()`. -/
def isPySpace (c : Char) : Bool :=
  c = ' ' || c = '\t' || c = '\n' || c = '\r'

/-- `str.strip()` on a character list. -/
def pyStrip (cs : List Char) : List Char :=
  ((cs.dropWhile isPySpace).reverse.dropWhile isPySpace).reverse

/--
`parse_version` (`software/version_utils.py:8`).  Mirrors:
`re.sub(r'^(v|version|ver)', '', version_string.lower().strip())` followed by
`re.match(r'^(\d+)(?:\.(\d+))?(?:\.(\d+))?', ...)` with missing groups
defaulting to `0`.  Note that in the substitution the alternatives are tried
left to right, so the alternative `v` always wins (both `version` and `ver`
begin with `v`): only a single leading `v` character is ever removed.
Returns the `(major, minor, patch)` triple as a list, or `[0]` when the
string is empty or no leading integer can be matched.
-/
def parse_version (version_string : String) : List Nat :=
  if version_string = "" then [0]
  else
    let s := pyStrip (version_string.data.map asciiLower)
    let cs := match s with
              | 'v' :: rest => rest
              | other => other
    let p1 := cs.span isAsciiDigit
    if p1.1 = [] then [0]
    else
      let major := digitsToNat p1.1
      match p1.2 with
      | '.' :: r1 =>
        let p2 := r1.span isAsciiDigit
        if p2.1 = [] then [major, 0, 0]
        else
          let minor := digitsToNat p2.1
          match p2.2 with
          | '.' :: r2 =>
            let p3 := r2.span isAsciiDigit
            if p3.1 = [] then [major, minor, 0]
            else [major, minor, digitsToNat p3.1]
          | _ => [major, minor, 0]
      | _ => [major, 0, 0]

/-- Python tuple comparison `<`, lexicographic with shorter-prefix-smaller. -/
def pyTupleLt [LT α] [DecidableRel (α := α) (· < ·)] : List α → List α → Bool
  | [], [] => false
  | [], _ :: _ => true
  | _ :: _, [] => false
  | a :: as, b :: bs => if a < b then true else if b < a then false else pyTupleLt as bs

/-- `compare_versions` (`software/version_utils.py:43`): `-1`/`0`/`1` from the
parsed tuples, by Python tuple order. -/
def compare_versions (version1 version2 : String) : Int :=
  let v1 := parse_version version1
  let v2 := parse_version version2
  if pyTupleLt v1 v2 then -1 else if pyTupleLt v2 v1 then 1 else 0

/-- `is_version_vulnerable` (`software/version_utils.py:68`): false when either
string is empty, else `compare_versions < 0`. -/
def is_version_vulnerable (installed_version safe_version_from : String) : Bool :=
  if installed_version = "" || safe_version_from = "" then false
  else compare_versions installed_version safe_version_from < 0

/-! ## Hardware obsolescence checker (`auditing/hardware_checker.py`) -/

/--
Python `int(str)`: optional surrounding whitespace, optional sign, a nonempty
run of decimal digits (underscore grouping not modelled).  `none` models a
raised `ValueError`.
-/
def pyInt (s : String) : Option Int :=
  let t := pyStrip s.data
  let signed : Int × List Char :=
    match t with
    | '+' :: r => (1, r)
    | '-' :: r => (-1, r)
    | r => (1, r)
  if signed.2 ≠ [] && signed.2.all isAsciiDigit then
    some (signed.1 * (digitsToNat signed.2 : Int))
  else none

/-- Split a character list on a separator character (`str.split('.')`). -/
def splitOnChar (sep : Char) : List Char → List (List Char)
  | [] => [[]]
  | c :: rest =>
    let r := splitOnChar sep rest
    if c = sep then [] :: r
    else match r with
         | h :: t => (c :: h) :: t
         | [] => [[c]]

/--
`parse_windows_version` (`auditing/hardware_checker.py:9`).  Splits on `.` and
applies `int` to every segment; any `ValueError` (and the empty string) yields
`(0, 0, 0)`.  Note: there is no padding to three segments and no per-segment
defaulting — `"10"` parses to the one-element tuple `(10,)`.
-/
def parse_windows_version (version_string : String) : List Int :=
  if version_string = "" then [0, 0, 0]
  else
    let parts := splitOnChar '.' version_string.data
    match parts.mapM (fun p => pyInt (String.mk p)) with
    | some ns => ns
    | none => [0, 0, 0]

/-- Case-sensitive substring test (Python `pat in s`). -/
def strContains (s pat : String) : Bool :=
  go s.data pat.data
where
  go : List Char → List Char → Bool
    | l, p => if p.isPrefixOf l then true
              else match l with
                   | [] => false
                   | _ :: t => go t p

/--
`HardwareObsolescenceRules` (`auditing/models.py:97`): the singleton
configuration row (pk 1).  Float fields modelled as `ℚ`; the auto-managed
`updated_at`/`updated_by` metadata is not read by any checker logic and is
not modelled.
-/
structure HardwareObsolescenceRules where
  windows_min_version : String
  ram_min_gb : ℚ
  disk_min_free_percent : ℚ
  enabled : Bool
deriving DecidableEq

/-- The model-field defaults of `HardwareObsolescenceRules`. -/
def HardwareObsolescenceRules.field_defaults : HardwareObsolescenceRules :=
  { windows_min_version := "10.0.19041"
    ram_min_gb := 4
    disk_min_free_percent := 10
    enabled := true }

/--
`HardwareObsolescenceRules.get_rules` (`auditing/models.py:150`):
`get_or_create(pk=1)` against the singleton table (modelled as
`Option HardwareObsolescenceRules`: the row with pk 1, if present).
Returns the row together with the table afterwards.
-/
def HardwareObsolescenceRules.get_rules (table : Option HardwareObsolescenceRules) :
    HardwareObsolescenceRules × Option HardwareObsolescenceRules :=
  match table with
  | some rules => (rules, some rules)
  | none => (HardwareObsolescenceRules.field_defaults,
             some HardwareObsolescenceRules.field_defaults)

/-- `assets.models.Asset` (`assets/models.py:5`): the columns the core logic
reads.  `asset_type` and `status` are the stored choice strings. -/
structure Asset where
  id : Nat
  inventory_code : String
  serial_number : String
  asset_type : String
  status : String
  brand : String
  model : String
  employee : Option Nat
  department : Option Nat
deriving DecidableEq

/-- `assets.models.ComputerDetail` (`assets/models.py:63`), pk = `asset`. -/
structure ComputerDetail where
  asset_id : Nat
  unique_identifier : String
  os_name : String
  os_version : String
  os_arch : String
  cpu_model : String
  ram_gb : Option ℚ
  motherboard_manufacturer : String
  motherboard_model : String
  last_updated_by_agent : Option Nat
deriving DecidableEq

/-- `assets.models.StorageDevice` (`assets/models.py:95`). -/
structure StorageDevice where
  id : Nat
  asset_id : Nat
  model : String
  serial_number : String
  capacity_gb : Option ℚ
  free_space_gb : Option ℚ
deriving DecidableEq

/-- `assets.models.GraphicsCard` (`assets/models.py:112`). -/
structure GraphicsCard where
  id : Nat
  asset_id : Nat
  model_name : String
deriving DecidableEq

/--
One entry of the `reasons` list built by `check_asset_obsolescence`.  The
source appends Spanish human-readable strings built from distinct templates;
each template is modelled as a constructor carrying the interpolated values
(the `details` dict of the source records exactly the same values).
-/
inductive ObsolescenceReason
  /-- `'Sin datos de hardware'` -/
  | noHardwareData
  /-- `f'Sistema operativo obsoleto: {os_name} {os_version}'` -/
  | osObsolete (os_name os_version : String)
  /-- `f'RAM insuficiente: {ram_gb} GB (mínimo: {min_gb} GB)'` -/
  | ramLow (ram_gb min_gb : ℚ)
  /-- `f'Disco con poco espacio: {model} - {free_percent}% libre ...'` -/
  | diskLow (model : String) (free_percent min_percent : ℚ)
deriving DecidableEq

/-- The dict returned by `check_asset_obsolescence`. -/
structure ObsolescenceResult where
  is_obsolete : Bool
  reasons : List ObsolescenceReason
deriving DecidableEq

/--
`check_asset_obsolescence` (`auditing/hardware_checker.py:24`).  The relational
accesses `asset.computerdetail` (reverse one-to-one, absent allowed) and
`asset.storage_devices` are passed explicitly.
-/
def check_asset_obsolescence (asset : Asset) (computerdetail : Option ComputerDetail)
    (storage_devices : List StorageDevice) (rules : HardwareObsolescenceRules) :
    ObsolescenceResult :=
  if !rules.enabled then ⟨false, []⟩
  else if !(asset.asset_type = "NOTEBOOK" || asset.asset_type = "DESKTOP") then ⟨false, []⟩
  else
    match computerdetail with
    | none => ⟨false, [.noHardwareData]⟩
    | some computer =>
      let os_reasons : List ObsolescenceReason :=
        if computer.os_name ≠ "" && strContains computer.os_name "Windows" then
          let current_version := parse_windows_version computer.os_version
          let min_version := parse_windows_version rules.windows_min_version
          if pyTupleLt current_version min_version then
            [.osObsolete computer.os_name computer.os_version]
          else []
        else []
      let ram_reasons : List ObsolescenceReason :=
        match computer.ram_gb with
        | some ram =>
          if ram < rules.ram_min_gb then [.ramLow ram rules.ram_min_gb] else []
        | none => []
      let disk_reasons : List ObsolescenceReason :=
        storage_devices.filterMap (fun disk =>
          match disk.capacity_gb, disk.free_space_gb with
          | some capacity, some free =>
            -- `if disk.capacity_gb and disk.free_space_gb is not None:`
            -- capacity is checked for truthiness (0.0 is falsy), free space
            -- only against None.
            if capacity ≠ 0 then
              let free_percent := free / capacity * 100
              if free_percent < rules.disk_min_free_percent then
                some (.diskLow disk.model free_percent rules.disk_min_free_percent)
              else none
            else none
          | _, _ => none)
      let reasons := os_reasons ++ ram_reasons ++ disk_reasons
      ⟨reasons.length > 0, reasons⟩

/--
Modelled from the spec (the claim's own description of the parsing, for the
refinement comparison of claim C8): up to three integer segments, non-numeric
or missing segments defaulting to `0`.
-/
def parse_windows_version_as_specified (s : String) : List Int :=
  let nums := ((splitOnChar '.' s.data).take 3).map (fun p => (pyInt (String.mk p)).getD 0)
  nums ++ List.replicate (3 - nums.length) 0

/-! ## Claims C6, C7, C8, C10 -/

/--
Claim C6, counterexample.  The claim states that a leading
`"v"`/`"version"`/`"ver"` token is stripped before parsing.  In the source the
substitution pattern `^(v|version|ver)` tries its alternatives left to right,
so only the single character `v` is ever removed: `"version2.0"` becomes
`"ersion2.0"`, which is unparseable and yields `(0,)` — not the `(2, 0, 0)`
that stripping the `"version"` token (i.e. parsing `"2.0"`) would give, and
likewise for `"ver"`.
-/
theorem claim_C6_counterexample :
    parse_version "version2.0" = [0] ∧
    parse_version "ver1.2" = [0] ∧
    parse_version "2.0" = [2, 0, 0] ∧
    parse_version "1.2" = [1, 2, 0] := by
  refine ⟨by decide, by decide, by decide, by decide⟩

/--
Claim C6 (amended): `compare_versions` parses each version string into up to
three integers (missing tail segments default to 0, only a leading `"v"`
character is stripped — a `"version"`/`"ver"` prefix loses just its `"v"` and
the remainder parses to the single-element zero tuple, as does any entirely
unparseable string) and compares the tuples lexicographically returning
-1/0/1; the three sample equations hold; and
`is_version_vulnerable(installed, safe_from)` is true iff both strings are
non-empty and `compare_versions(installed, safe_from) < 0`.
-/
theorem claim_C6_version_comparison_amended :
    compare_versions "2.7.18" "3.0.0" = -1 ∧
    compare_versions "3.10" "3.9.5" = 1 ∧
    compare_versions "2.5.0" "2.5" = 0 ∧
    parse_version "" = [0] ∧
    parse_version "garbage" = [0] ∧
    parse_version "1.2" = [1, 2, 0] ∧
    parse_version "v2.5.1" = [2, 5, 1] ∧
    (∀ installed safe_from : String,
      is_version_vulnerable installed safe_from =
        (installed != "" && safe_from != "" &&
          decide (compare_versions installed safe_from < 0))) := by
  refine ⟨by decide, by decide, by decide, by decide, by decide, by decide, by decide, ?_⟩
  intro installed safe_from
  unfold is_version_vulnerable
  by_cases h1 : installed = "" <;> by_cases h2 : safe_from = "" <;>
    simp [h1, h2]

/--
Claim C7, counterexample.  For a computer-type asset with rules enabled but no
`ComputerDetail` attached, `check_asset_obsolescence` returns
`is_obsolete = False` together with the NON-empty reasons list
`['Sin datos de hardware']` (`auditing/hardware_checker.py:53`), contradicting
both the claimed empty reasons list and the claimed equality
`is_obsolete = (reasons non-empty)`.
-/
theorem claim_C7_counterexample :
    (check_asset_obsolescence
        ⟨1, "UPLA-NO-0001", "SN-1", "NOTEBOOK", "BODEGA", "Dell", "X1", none, none⟩
        none [] HardwareObsolescenceRules.field_defaults).is_obsolete = false ∧
    (check_asset_obsolescence
        ⟨1, "UPLA-NO-0001", "SN-1", "NOTEBOOK", "BODEGA", "Dell", "X1", none, none⟩
        none [] HardwareObsolescenceRules.field_defaults).reasons =
      [ObsolescenceReason.noHardwareData] := by
  refine ⟨by decide, by decide⟩

/--
Claim C7 (amended): `check_asset_obsolescence` returns `is_obsolete = false`
with an empty reasons list whenever rules are disabled or the asset's type is
not NOTEBOOK/DESKTOP; when the asset is an enabled computer without a
`ComputerDetail` snapshot it returns `is_obsolete = false` with the single
reason `'Sin datos de hardware'` (a non-empty list); and whenever a snapshot
is present, `is_obsolete` equals (the reasons list is non-empty).
-/
theorem claim_C7_short_circuit_amended (asset : Asset) (cd : Option ComputerDetail)
    (sds : List StorageDevice) (rules : HardwareObsolescenceRules) :
    (rules.enabled = false →
      check_asset_obsolescence asset cd sds rules = ⟨false, []⟩) ∧
    (asset.asset_type ≠ "NOTEBOOK" → asset.asset_type ≠ "DESKTOP" →
      check_asset_obsolescence asset cd sds rules = ⟨false, []⟩) ∧
    (rules.enabled = true →
      (asset.asset_type = "NOTEBOOK" ∨ asset.asset_type = "DESKTOP") →
      cd = none →
      check_asset_obsolescence asset cd sds rules =
        ⟨false, [ObsolescenceReason.noHardwareData]⟩) ∧
    (∀ computer, cd = some computer →
      (check_asset_obsolescence asset cd sds rules).is_obsolete =
        !(check_asset_obsolescence asset cd sds rules).reasons.isEmpty) := by
  refine ⟨?_, ?_, ?_, ?_⟩
  · intro h
    unfold check_asset_obsolescence
    simp [h]
  · intro h1 h2
    unfold check_asset_obsolescence
    by_cases he : rules.enabled <;> simp [he, h1, h2]
  · intro he hty hcd
    unfold check_asset_obsolescence
    rcases hty with h | h <;> simp [he, h, hcd]
  · intro computer hcd
    subst hcd
    obtain ⟨R, hR⟩ : ∃ R, check_asset_obsolescence asset (some computer) sds rules =
        ⟨decide (R.length > 0), R⟩ := by
      unfold check_asset_obsolescence
      split
      · exact ⟨[], rfl⟩
      · split
        · exact ⟨[], rfl⟩
        · exact ⟨_, rfl⟩
    rw [hR]
    cases R <;> simp

/--
Closed instantiation of `claim_C7_short_circuit_amended`, discharging each
hypothesis at concrete inputs.
-/
theorem claim_C7_short_circuit_amended_witness :
    check_asset_obsolescence
        ⟨2, "UPLA-DE-0001", "SN-2", "DESKTOP", "BODEGA", "HP", "Z2", none, none⟩
        none [] ⟨"10.0.19041", 4, 10, false⟩ = ⟨false, []⟩ ∧
    check_asset_obsolescence
        ⟨3, "MON-0001", "SN-3", "MONITOR", "BODEGA", "LG", "M1", none, none⟩
        none [] HardwareObsolescenceRules.field_defaults = ⟨false, []⟩ ∧
    check_asset_obsolescence
        ⟨4, "UPLA-DE-0002", "SN-4", "DESKTOP", "BODEGA", "HP", "Z4", none, none⟩
        none [] HardwareObsolescenceRules.field_defaults =
      ⟨false, [ObsolescenceReason.noHardwareData]⟩ ∧
    (check_asset_obsolescence
        ⟨5, "UPLA-DE-0003", "SN-5", "DESKTOP", "BODEGA", "HP", "Z5", none, none⟩
        (some ⟨5, "u5", "Linux", "6.1", "x86_64", "i5", some 16, "HP", "B5", none⟩)
        [] HardwareObsolescenceRules.field_defaults).is_obsolete =
      !(check_asset_obsolescence
        ⟨5, "UPLA-DE-0003", "SN-5", "DESKTOP", "BODEGA", "HP", "Z5", none, none⟩
        (some ⟨5, "u5", "Linux", "6.1", "x86_64", "i5", some 16, "HP", "B5", none⟩)
        [] HardwareObsolescenceRules.field_defaults).reasons.isEmpty := by
  refine ⟨(claim_C7_short_circuit_amended _ _ _ _).1 rfl,
          (claim_C7_short_circuit_amended _ _ _ _).2.1 (by decide) (by decide),
          (claim_C7_short_circuit_amended _ _ _ _).2.2.1 rfl (Or.inr rfl) rfl,
          (claim_C7_short_circuit_amended _ _ _ _).2.2.2 _ rfl⟩

/--
Claim C8, counterexample.  `parse_windows_version` does not pad to three
segments and does not default non-numeric segments individually, so the
claim's parsing contract fails observably: with installed OS version `"10"`
and configured minimum `"10.0.0"` the code parses `(10,) < (10, 0, 0)` and
flags the OS as obsolete, while the parsing described by the claim yields
equal tuples `(10, 0, 0)` on both sides (no flagging).
-/
theorem claim_C8_counterexample :
    (check_asset_obsolescence
        ⟨1, "UPLA-NO-0001", "SN-1", "NOTEBOOK", "BODEGA", "Dell", "X1", none, none⟩
        (some ⟨1, "uuid-1", "Microsoft Windows 10", "10", "64-bit", "i5", some 8,
               "Dell", "B1", none⟩)
        [] ⟨"10.0.0", 4, 10, true⟩).reasons =
      [ObsolescenceReason.osObsolete "Microsoft Windows 10" "10"] ∧
    parse_windows_version "10" = [10] ∧
    parse_windows_version "10.0.x" = [0, 0, 0] ∧
    parse_windows_version_as_specified "10" =
      parse_windows_version_as_specified "10.0.0" := by
  refine ⟨by decide, by decide, by decide, by decide⟩

/--
Helper for claim C8: membership of an OS-obsolescence reason in the
concatenated reasons list, given that the other two sublists only ever hold
RAM and disk reasons.
-/
theorem mem_os_reason_iff (n v : String) (c : Bool) (B C : List ObsolescenceReason)
    (hB : ∀ r ∈ B, ∃ a b, r = ObsolescenceReason.ramLow a b)
    (hC : ∀ r ∈ C, ∃ m a b, r = ObsolescenceReason.diskLow m a b) :
    (ObsolescenceReason.osObsolete n v ∈
      (if c = true then [ObsolescenceReason.osObsolete n v] else []) ++ B ++ C) ↔
      c = true := by
  constructor
  · intro hmem
    rcases List.mem_append.1 hmem with hmem' | hcm
    · rcases List.mem_append.1 hmem' with hosm | hbm
      · cases c with
        | true => rfl
        | false => simp at hosm
      · rcases hB _ hbm with ⟨a, b, hab⟩
        exact absurd hab (by simp)
    · rcases hC _ hcm with ⟨m, a, b, hab⟩
      exact absurd hab (by simp)
  · intro hc
    subst hc
    simp

/--
Claim C8 (amended): when the OS check applies (rules enabled, computer-type
asset, hardware snapshot present, OS name non-empty and containing the
case-sensitive substring `"Windows"`), the OS-obsolescence reason is flagged
iff the installed tuple is lexicographically smaller than the configured
minimum — where both strings are parsed by splitting on `.` into one integer
per segment with NO padding to three segments (`"10"` parses to the
one-element tuple `(10,)`, which compares below `(10, 0, 0)`), and any
non-numeric segment (or the empty string) makes the WHOLE tuple `(0, 0, 0)`.
-/
theorem claim_C8_os_check_amended (asset : Asset) (computer : ComputerDetail)
    (sds : List StorageDevice) (rules : HardwareObsolescenceRules)
    (hen : rules.enabled = true)
    (hty : asset.asset_type = "NOTEBOOK" ∨ asset.asset_type = "DESKTOP")
    (hos : computer.os_name ≠ "")
    (hwin : strContains computer.os_name "Windows" = true) :
    (ObsolescenceReason.osObsolete computer.os_name computer.os_version ∈
        (check_asset_obsolescence asset (some computer) sds rules).reasons) ↔
      pyTupleLt (parse_windows_version computer.os_version)
        (parse_windows_version rules.windows_min_version) = true := by
  have hreasons :
      (check_asset_obsolescence asset (some computer) sds rules).reasons =
        (if pyTupleLt (parse_windows_version computer.os_version)
              (parse_windows_version rules.windows_min_version) = true then
           [ObsolescenceReason.osObsolete computer.os_name computer.os_version]
         else []) ++
        (match computer.ram_gb with
         | some ram =>
           if ram < rules.ram_min_gb then
             [ObsolescenceReason.ramLow ram rules.ram_min_gb]
           else []
         | none => []) ++
        (sds.filterMap (fun disk =>
          match disk.capacity_gb, disk.free_space_gb with
          | some capacity, some free =>
            if capacity ≠ 0 then
              if free / capacity * 100 < rules.disk_min_free_percent then
                some (ObsolescenceReason.diskLow disk.model (free / capacity * 100)
                        rules.disk_min_free_percent)
              else none
            else none
          | _, _ => none)) := by
    unfold check_asset_obsolescence
    rcases hty with h | h <;> simp [hen, h, hos, hwin, List.append_assoc]
  rw [hreasons]
  apply mem_os_reason_iff
  · intro r hr
    rcases hram : computer.ram_gb with _ | ram
    · rw [hram] at hr
      simp at hr
    · rw [hram] at hr
      by_cases hlt : ram < rules.ram_min_gb
      · simp [hlt] at hr
        exact ⟨ram, rules.ram_min_gb, hr⟩
      · simp [hlt] at hr
  · intro r hr
    rcases List.mem_filterMap.1 hr with ⟨disk, _, hdisk⟩
    rcases hcap : disk.capacity_gb with _ | capacity <;> rw [hcap] at hdisk
    · simp at hdisk
    · rcases hfree : disk.free_space_gb with _ | free <;> rw [hfree] at hdisk
      · simp at hdisk
      · by_cases h0 : capacity ≠ 0
        · by_cases hlt : free / capacity * 100 < rules.disk_min_free_percent
          · simp [h0, hlt] at hdisk
            exact ⟨disk.model, free / capacity * 100, rules.disk_min_free_percent,
                   hdisk.symm⟩
          · simp [h0, hlt] at hdisk
        · simp [h0] at hdisk

/-- Closed instantiation of `claim_C8_os_check_amended` at a concrete input. -/
theorem claim_C8_os_check_amended_witness :
    ObsolescenceReason.osObsolete "Microsoft Windows 10 Pro" "10.0.18000" ∈
      (check_asset_obsolescence
        ⟨6, "UPLA-NO-0006", "SN-6", "NOTEBOOK", "BODEGA", "Dell", "X6", none, none⟩
        (some ⟨6, "u6", "Microsoft Windows 10 Pro", "10.0.18000", "64-bit", "i7",
               some 16, "Dell", "B6", none⟩)
        [] HardwareObsolescenceRules.field_defaults).reasons :=
  (claim_C8_os_check_amended _ _ _ _ rfl (Or.inl rfl) (by decide) (by decide)).2
    (by decide)

/--
Claim C10: `HardwareObsolescenceRules.get_rules()` returns the singleton row
(pk 1), creating it on first access with the model-field defaults
`windows_min_version = "10.0.19041"`, `ram_min_gb = 4.0`,
`disk_min_free_percent = 10.0` and `enabled = True` — so obsolescence
detection is enabled with these thresholds before any configuration.
-/
theorem claim_C10_get_rules_singleton :
    HardwareObsolescenceRules.get_rules none =
      (⟨"10.0.19041", 4, 10, true⟩, some ⟨"10.0.19041", 4, 10, true⟩) ∧
    (∀ row, HardwareObsolescenceRules.get_rules (some row) = (row, some row)) ∧
    HardwareObsolescenceRules.field_defaults.enabled = true := by
  exact ⟨rfl, fun row => rfl, rfl⟩

/-! ## Audit signals (`auditing/signals.py`) -/

/-- The acting principal (`request.user`): Django always attaches a user
object; anonymous users carry `is_authenticated = False`. -/
structure SystemUser where
  username : String
  is_authenticated : Bool
deriving DecidableEq

/-- The part of the stored request read by the audit signals.  `user = none`
models a request object without a `user` attribute (authentication middleware
not yet run). -/
structure HttpRequest where
  user : Option SystemUser
deriving DecidableEq

/--
`get_current_user` (`auditing/signals.py:19`): resolves the actor from the
request stored in thread-local storage (`none` = no stored request); returns
the user only when authenticated.
-/
def get_current_user (request : Option HttpRequest) : Option SystemUser :=
  match request with
  | none => none
  | some r =>
    match r.user with
    | none => none
    | some u => if u.is_authenticated then some u else none

/--
The canonical-string view of a model instance used by the diff engine: the
instance's non-auto-created concrete fields, each as
`str(value)`/`None` (`auditing/signals.py:88`).
-/
abbrev InstanceFields := List (String × Option String)

/-- `getattr(instance, field_name, None)` over the canonical-string view. -/
def lookupField (inst : InstanceFields) (field_name : String) : Option String :=
  (inst.lookup field_name).getD none

/-- One `{'old': ..., 'new': ...}` entry of a diff. -/
structure FieldChange where
  old : Option String
  new : Option String
deriving DecidableEq

/--
`get_instance_changes` (`auditing/signals.py:66`), given that the pre-save
before-image was captured: for every non-auto-created field (the `fields`
enumeration of the model class), compare the canonical string forms and keep
the differing ones.  (`get_model_diff`, `auditing/signals.py:151`, computes
the same map.)
-/
def get_instance_changes (fields : List String)
    (old_instance new_instance : InstanceFields) : List (String × FieldChange) :=
  fields.filterMap (fun field_name =>
    let old_str := lookupField old_instance field_name
    let new_str := lookupField new_instance field_name
    if old_str ≠ new_str then some (field_name, ⟨old_str, new_str⟩) else none)

/-- The `details` JSON payloads built by the signal handlers that claims C1
and C2 exercise.  The `ram_gb` entry stores `str(ram_gb)` in the source; the
underlying numeric value is kept here. -/
inductive AuditDetails
  | assetCreate (inventory_code asset_type brand model status : String)
  | assetUpdate (inventory_code : String) (changes : List (String × FieldChange))
  | computerDetailSave (asset_inventory_code : Option String) (cpu_model : String)
      (ram_gb : Option ℚ)
deriving DecidableEq

/-- One row of `auditing.models.AuditLog` (`auditing/models.py:9`). -/
structure AuditLogRow where
  system_user : String
  action : String
  target_table : String
  target_id : Nat
  details : AuditDetails
deriving DecidableEq

/-- `AuditLog.objects.create(...)`: the database write, which may raise
(modelled by the `db_write_fails` flag). -/
def audit_db_insert (db_write_fails : Bool) (row : AuditLogRow) :
    Except String AuditLogRow :=
  if db_write_fails then .error "database error" else .ok row

/--
`create_audit_log` (`auditing/signals.py:116`): resolve the actor from
thread-local storage; skip entirely when no authenticated user is present;
otherwise attempt the `AuditLog` insert inside `try`/`except`, swallowing any
failure (`auditing/signals.py:147`).  The result is the list of rows actually
written; the `Except` layer records whether the handler itself raises —
it never does, so the primary mutation is never failed by auditing.
-/
def create_audit_log (request : Option HttpRequest) (action : String)
    (target_table : String) (target_id : Nat) (details : AuditDetails)
    (db_write_fails : Bool) : Except String (List AuditLogRow) :=
  match get_current_user request with
  | none => .ok []
  | some u =>
    if !u.is_authenticated then .ok []
    else
      match audit_db_insert db_write_fails
          ⟨u.username, action, target_table, target_id, details⟩ with
      | .ok row => .ok [row]
      | .error _e => .ok []

/--
The UPDATE path of `audit_asset_save` (`auditing/signals.py:219`,
`created = False`) together with its `pre_save` capture: compute the diff
against the before-image; skip when nothing changed; otherwise record one
UPDATE row whose details hold the inventory code and the diff.
-/
def audit_asset_update (request : Option HttpRequest) (fields : List String)
    (old_instance new_instance : InstanceFields) (inventory_code : String)
    (target_id : Nat) (db_write_fails : Bool) : Except String (List AuditLogRow) :=
  let changes := get_instance_changes fields old_instance new_instance
  if changes = [] then .ok []
  else
    create_audit_log request "UPDATE" "assets_asset" target_id
      (.assetUpdate inventory_code changes) db_write_fails

/--
`audit_computer_detail_save` (`auditing/signals.py:264`): fires on every save
of a `ComputerDetail`, CREATE and UPDATE alike, and always calls
`create_audit_log` with a fixed summary payload — no diff is computed and
no-op updates are NOT skipped.  The `ram_gb` detail is
`str(ram_gb) if ram_gb else None` (`0.0` is falsy).
-/
def audit_computer_detail_save (request : Option HttpRequest) (created : Bool)
    (asset_inventory_code : Option String) (cpu_model : String) (ram_gb : Option ℚ)
    (target_id : Nat) (db_write_fails : Bool) : Except String (List AuditLogRow) :=
  create_audit_log request (if created then "CREATE" else "UPDATE")
    "assets_computerdetail" target_id
    (.computerDetailSave asset_inventory_code cpu_model
      (match ram_gb with
       | some r => if r ≠ 0 then some r else none
       | none => none))
    db_write_fails

/-! ## Claims C1 and C2 -/

/-- `get_current_user` only ever returns authenticated users. -/
theorem get_current_user_authenticated (request : Option HttpRequest)
    (u : SystemUser) (h : get_current_user request = some u) :
    u.is_authenticated = true := by
  unfold get_current_user at h
  rcases request with _ | r
  · exact absurd h (by simp)
  · rcases r with ⟨_ | v⟩
    · exact absurd h (by simp)
    · by_cases hv : v.is_authenticated
      · simp [hv] at h
        subst h
        exact hv
      · simp [hv] at h

/--
Claim C2: for every tracked-entity mutation, the audit side path never raises
(so the primary mutation is never failed or rolled back by auditing); when no
authenticated actor is resolvable, zero `AuditLog` rows are written; and when
the `AuditLog` insert itself fails, the failure is caught and zero rows are
written, again without raising.
-/
theorem claim_C2_fail_open_audit (request : Option HttpRequest) (action : String)
    (target_table : String) (target_id : Nat) (details : AuditDetails)
    (db_write_fails : Bool) :
    (∃ rows, create_audit_log request action target_table target_id details
        db_write_fails = .ok rows) ∧
    (get_current_user request = none →
      create_audit_log request action target_table target_id details
        db_write_fails = .ok []) ∧
    (db_write_fails = true →
      create_audit_log request action target_table target_id details
        db_write_fails = .ok []) := by
  refine ⟨?_, ?_, ?_⟩
  · unfold create_audit_log
    rcases hu : get_current_user request with _ | u
    · exact ⟨[], rfl⟩
    · by_cases ha : u.is_authenticated
      · cases db_write_fails <;> simp [ha, audit_db_insert]
      · simp [ha]
  · intro h
    unfold create_audit_log
    rw [h]
  · intro h
    subst h
    unfold create_audit_log
    rcases hu : get_current_user request with _ | u
    · rfl
    · by_cases ha : u.is_authenticated <;> simp [ha, audit_db_insert]

/-- Closed instantiation of `claim_C2_fail_open_audit`: an anonymous request
writes nothing, and a failing audit insert under an authenticated actor is
swallowed, also writing nothing. -/
theorem claim_C2_fail_open_audit_witness :
    create_audit_log (some ⟨some ⟨"anon", false⟩⟩) "UPDATE" "assets_asset" 1
      (.assetUpdate "UPLA-DE-0001" []) false = .ok [] ∧
    create_audit_log (some ⟨some ⟨"admin", true⟩⟩) "UPDATE" "assets_asset" 1
      (.assetUpdate "UPLA-DE-0001" []) true = .ok [] := by
  exact ⟨(claim_C2_fail_open_audit _ _ _ _ _ _).2.1 rfl,
         (claim_C2_fail_open_audit _ _ _ _ _ _).2.2 rfl⟩

/--
Claim C1, counterexample.  A no-op update to a `ComputerDetail` (a tracked
type) with an authenticated actor writes one `AuditLog` row — not zero:
`audit_computer_detail_save` (`auditing/signals.py:264`) computes no diff and
never skips.  The second conjunct evidences that no persisted field's
canonical string form changed, and the written row's details carry no
`changes` map at all.
-/
theorem claim_C1_counterexample :
    audit_computer_detail_save (some ⟨some ⟨"admin", true⟩⟩) false
      (some "UPLA-DE-0001") "Intel Core i5" (some 8) 7 false =
      .ok [⟨"admin", "UPDATE", "assets_computerdetail", 7,
            .computerDetailSave (some "UPLA-DE-0001") "Intel Core i5" (some 8)⟩] ∧
    get_instance_changes ["cpu_model", "ram_gb"]
      [("cpu_model", some "Intel Core i5"), ("ram_gb", some "8.0")]
      [("cpu_model", some "Intel Core i5"), ("ram_gb", some "8.0")] = [] := by
  refine ⟨by rfl, by decide⟩

/--
Claim C1 (amended): with an authenticated actor resolvable and the audit
insert succeeding, an update to an entity audited through the diff path
(`Asset`, per `audit_asset_save`) writes zero rows when no persisted field's
canonical string form changed and exactly one UPDATE row otherwise, whose
`details.changes` maps exactly the changed fields (and no unchanged field) to
their old/new string values; but an update to a `ComputerDetail` always
writes exactly one UPDATE row with a fixed summary payload and no diff,
regardless of whether anything changed.
-/
theorem claim_C1_update_audit_amended (request : Option HttpRequest)
    (u : SystemUser) (fields : List String)
    (old_instance new_instance : InstanceFields) (inventory_code : String)
    (target_id : Nat) (hu : get_current_user request = some u) :
    (get_instance_changes fields old_instance new_instance = [] →
      audit_asset_update request fields old_instance new_instance inventory_code
        target_id false = .ok []) ∧
    (get_instance_changes fields old_instance new_instance ≠ [] →
      audit_asset_update request fields old_instance new_instance inventory_code
        target_id false =
        .ok [⟨u.username, "UPDATE", "assets_asset", target_id,
              .assetUpdate inventory_code
                (get_instance_changes fields old_instance new_instance)⟩]) ∧
    (∀ field_name ch,
      (field_name, ch) ∈ get_instance_changes fields old_instance new_instance ↔
        (field_name ∈ fields ∧
         lookupField old_instance field_name ≠ lookupField new_instance field_name ∧
         ch = ⟨lookupField old_instance field_name,
               lookupField new_instance field_name⟩)) ∧
    (∀ created asset_inventory_code cpu_model ram_gb tid,
      audit_computer_detail_save request created asset_inventory_code cpu_model
        ram_gb tid false =
        .ok [⟨u.username, (if created then "CREATE" else "UPDATE"),
              "assets_computerdetail", tid,
              .computerDetailSave asset_inventory_code cpu_model
                (match ram_gb with
                 | some r => if r ≠ 0 then some r else none
                 | none => none)⟩]) := by
  have hauth : u.is_authenticated = true := get_current_user_authenticated _ _ hu
  refine ⟨?_, ?_, ?_, ?_⟩
  · intro h
    unfold audit_asset_update
    simp [h]
  · intro h
    unfold audit_asset_update create_audit_log
    simp [h, hu, hauth, audit_db_insert]
  · intro field_name ch
    unfold get_instance_changes
    constructor
    · intro hmem
      rcases List.mem_filterMap.1 hmem with ⟨a, ha, hfa⟩
      by_cases hne : lookupField old_instance a ≠ lookupField new_instance a
      · have hfa' : some (a, (⟨lookupField old_instance a,
            lookupField new_instance a⟩ : FieldChange)) = some (field_name, ch) := by
          rw [← hfa]
          simp [hne]
        injection hfa' with h
        injection h with h1 h2
        subst h1
        exact ⟨ha, hne, h2.symm⟩
      · have hnone : (none : Option (String × FieldChange)) = some (field_name, ch) := by
          rw [← hfa]
          simp [hne]
        exact absurd hnone (by simp)
    · rintro ⟨hmem, hne, hch⟩
      refine List.mem_filterMap.2 ⟨field_name, hmem, ?_⟩
      simp [hne, hch]
  · intro created asset_inventory_code cpu_model ram_gb tid
    unfold audit_computer_detail_save create_audit_log
    simp [hu, hauth, audit_db_insert]

/--
Closed instantiation of `claim_C1_update_audit_amended`: a no-op Asset update
writes nothing; a status change writes exactly one UPDATE row whose diff maps
exactly the changed field; and a ComputerDetail update writes one row.
-/
theorem claim_C1_update_audit_amended_witness :
    audit_asset_update (some ⟨some ⟨"admin", true⟩⟩) ["inventory_code", "status"]
      [("inventory_code", some "UPLA-DE-0001"), ("status", some "BODEGA")]
      [("inventory_code", some "UPLA-DE-0001"), ("status", some "BODEGA")]
      "UPLA-DE-0001" 3 false = .ok [] ∧
    audit_asset_update (some ⟨some ⟨"admin", true⟩⟩) ["inventory_code", "status"]
      [("inventory_code", some "UPLA-DE-0001"), ("status", some "BODEGA")]
      [("inventory_code", some "UPLA-DE-0001"), ("status", some "ASIGNADO")]
      "UPLA-DE-0001" 3 false =
      .ok [⟨"admin", "UPDATE", "assets_asset", 3,
            .assetUpdate "UPLA-DE-0001"
              [("status", ⟨some "BODEGA", some "ASIGNADO"⟩)]⟩] ∧
    (("status", (⟨some "BODEGA", some "ASIGNADO"⟩ : FieldChange)) ∈
      get_instance_changes ["inventory_code", "status"]
        [("inventory_code", some "UPLA-DE-0001"), ("status", some "BODEGA")]
        [("inventory_code", some "UPLA-DE-0001"), ("status", some "ASIGNADO")]) ∧
    audit_computer_detail_save (some ⟨some ⟨"admin", true⟩⟩) false
      (some "UPLA-DE-0001") "Intel Core i7" (some 16) 9 false =
      .ok [⟨"admin", "UPDATE", "assets_computerdetail", 9,
            .computerDetailSave (some "UPLA-DE-0001") "Intel Core i7"
              (some 16)⟩] := by
  have H1 := claim_C1_update_audit_amended (some ⟨some ⟨"admin", true⟩⟩)
      ⟨"admin", true⟩ ["inventory_code", "status"]
      [("inventory_code", some "UPLA-DE-0001"), ("status", some "BODEGA")]
      [("inventory_code", some "UPLA-DE-0001"), ("status", some "BODEGA")]
      "UPLA-DE-0001" 3 rfl
  have H2 := claim_C1_update_audit_amended (some ⟨some ⟨"admin", true⟩⟩)
      ⟨"admin", true⟩ ["inventory_code", "status"]
      [("inventory_code", some "UPLA-DE-0001"), ("status", some "BODEGA")]
      [("inventory_code", some "UPLA-DE-0001"), ("status", some "ASIGNADO")]
      "UPLA-DE-0001" 3 rfl
  have hdiff : get_instance_changes ["inventory_code", "status"]
      [("inventory_code", some "UPLA-DE-0001"), ("status", some "BODEGA")]
      [("inventory_code", some "UPLA-DE-0001"), ("status", some "ASIGNADO")] =
      [("status", (⟨some "BODEGA", some "ASIGNADO"⟩ : FieldChange))] := by decide
  have h2 := H2.2.1 (by decide)
  rw [hdiff] at h2
  have h4 := H2.2.2.2 false (some "UPLA-DE-0001") "Intel Core i7" (some 16) 9
  refine ⟨H1.1 (by decide), h2,
          (H2.2.2.1 "status" ⟨some "BODEGA", some "ASIGNADO"⟩).2
            ⟨by decide, by decide, rfl⟩, ?_⟩
  simpa using h4

/-! ## Vulnerability scanner (`software/version_utils.py`, `software/models.py`,
`auditing/models.py`) -/

/-- `software.models.SoftwareCatalog` (unique (name, developer)). -/
structure SoftwareCatalog where
  id : Nat
  name : String
  developer : String
deriving DecidableEq

/-- `software.models.InstalledSoftware` (unique (asset, software)). -/
structure InstalledSoftware where
  id : Nat
  asset_id : Nat
  software_id : Nat
  version : String
  install_date : Option Nat
  license_id : Option Nat
deriving DecidableEq

/-- `software.models.SoftwareVulnerability`. -/
structure SoftwareVulnerability where
  id : Nat
  software_id : Nat
  cve_id : String
  title : String
  severity : String
  safe_version_from : String
deriving DecidableEq

/-- `ComplianceWarning.StatusChoices` (stored strings `"NUEVA"`,
`"EN_REVISION"`, `"RESUELTA"`, `"FALSO_POSITIVO"`). -/
inductive WarningStatus
  | NEW
  | IN_REVIEW
  | RESOLVED
  | FALSE_POSITIVE
deriving DecidableEq

/-- The JSON evidence dict written by `generate_vulnerability_warnings`
(every key optional when read back through `.get`). -/
structure VulnEvidence where
  vulnerability_id : Option Nat
  software_name : Option String
  installed_version : Option String
  safe_version : Option String
  severity : Option String
  cve_id : Option String
  vulnerability_title : Option String
deriving DecidableEq

/-- The JSON evidence dict written for suspicious software by
`agent_hardware_report` (`auditing/views.py:566`). -/
structure SuspiciousEvidence where
  software_name : String
  installation_path : String
  reason : String
  developer : String
  version : String
  additional_evidence : Option String
deriving DecidableEq

/-- The shapes of the free-form `ComplianceWarning.evidence` JSON payload
produced by the core. -/
inductive WarningEvidenceVal
  | vulnerability (v : VulnEvidence)
  | suspiciousSoftware (s : SuspiciousEvidence)
  /-- `{'agent_report': True, 'change': change}` (`auditing/views.py:593`) -/
  | hardwareChange (change : String)
deriving DecidableEq

/-- `auditing.models.ComplianceWarning` (`auditing/models.py:67`); the
`detection_date` and `resolved_by` columns are never read by the scanner or
ingestion logic and are not modelled. -/
structure ComplianceWarning where
  id : Nat
  asset_id : Nat
  category : String
  description : String
  evidence : Option WarningEvidenceVal
  status : WarningStatus
  resolution_notes : String
deriving DecidableEq

/-- `(warning.evidence or {}).get('vulnerability_id')`: a missing key (any
non-vulnerability evidence shape, or no evidence) reads as `None`. -/
def evidence_vulnerability_id : Option WarningEvidenceVal → Option Nat
  | some (.vulnerability v) => v.vulnerability_id
  | _ => none

/-- `evidence.get('software_name')` (also present in suspicious-software
evidence dicts). -/
def evidence_software_name : Option WarningEvidenceVal → Option String
  | some (.vulnerability v) => v.software_name
  | some (.suspiciousSoftware s) => some s.software_name
  | _ => none

/-- `evidence.get('installed_version')`. -/
def evidence_installed_version : Option WarningEvidenceVal → Option String
  | some (.vulnerability v) => v.installed_version
  | _ => none

/-- `evidence.get('safe_version')`. -/
def evidence_safe_version : Option WarningEvidenceVal → Option String
  | some (.vulnerability v) => v.safe_version
  | _ => none

/-- The three tables the scanner reads (and never writes). -/
structure SoftwareDB where
  catalogs : List SoftwareCatalog
  installations : List InstalledSoftware
  vulnerabilities : List SoftwareVulnerability
deriving DecidableEq

/-- Total model of the foreign-key join `installation.software.name`; under
referential integrity (unique catalog ids, existing row) this is the joined
name. -/
def catalogNameD (db : SoftwareDB) (software_id : Nat) : String :=
  ((db.catalogs.find? (fun c => c.id = software_id)).map (fun c => c.name)).getD ""

/-- The SQL join filter `software__name = software_name`: the installation's
catalog row exists and bears the given name. -/
def installMatchesName (db : SoftwareDB) (i : InstalledSoftware)
    (software_name : String) : Bool :=
  match db.catalogs.find? (fun c => c.id = i.software_id) with
  | some c => c.name = software_name
  | none => false

/-- One entry of the list built by `get_vulnerable_installations`; the other
dict keys of the source are projections of these two rows. -/
structure VulnerableEntry where
  installation : InstalledSoftware
  vulnerability : SoftwareVulnerability
deriving DecidableEq

/--
`get_vulnerable_installations` (`software/version_utils.py:91`): every
installation with a non-empty version, against every vulnerability of its
catalog entry; one entry per (installation, vulnerability) pair.
-/
def get_vulnerable_installations (db : SoftwareDB) : List VulnerableEntry :=
  (db.installations.filter (fun i => i.version ≠ "")).flatMap (fun i =>
    (db.vulnerabilities.filter (fun v => v.software_id = i.software_id)).filterMap
      (fun v =>
        if is_version_vulnerable i.version v.safe_version_from then
          some ⟨i, v⟩
        else none))

/-- `status__in=[NEW, IN_REVIEW]`. -/
def is_open_status (s : WarningStatus) : Bool :=
  s = .NEW || s = .IN_REVIEW

/-- The FALSE_POSITIVE condition of the cleanup loop: a truthy
(`if vulnerability_id:`) recorded id with no surviving
`SoftwareVulnerability` row (`software/version_utils.py:174`). -/
def fp_check (db : SoftwareDB) (w : ComplianceWarning) : Bool :=
  match evidence_vulnerability_id w.evidence with
  | some vid => vid ≠ 0 && !(db.vulnerabilities.any (fun v => v.id = vid))
  | none => false

/--
One iteration of the cleanup loop of `generate_vulnerability_warnings`
(`software/version_utils.py:169`), as a function of the warning alone (each
iteration reads only the software tables and the warning it processes):
 - warnings outside the open SOFTWARE_VULNERABLE queryset are untouched;
 - `fp_check` sends the warning to FALSE_POSITIVE (and `continue`);
 - otherwise, with all three evidence fields truthy, the first installation
   on the warning's asset whose catalog name matches is re-checked: if it is
   no longer vulnerable w.r.t. the recorded safe version, the warning is
   RESOLVED; if there is no such installation, nothing happens.
`.first()` on the unordered queryset orders by primary key; the
installations table is modelled as a pk-ordered list, so `head?` of the
(order-preserving) filter is that same row.
-/
def cleanup_warning (db : SoftwareDB) (w : ComplianceWarning) : ComplianceWarning :=
  if w.category = "SOFTWARE_VULNERABLE" && is_open_status w.status then
    if fp_check db w then
      { w with status := .FALSE_POSITIVE,
               resolution_notes := "Vulnerabilidad eliminada del sistema" }
    else
      match evidence_software_name w.evidence, evidence_installed_version w.evidence,
            evidence_safe_version w.evidence with
      | some software_name, some installed_version, some safe_version =>
        if software_name ≠ "" && installed_version ≠ "" && safe_version ≠ "" then
          match (db.installations.filter (fun i =>
              i.asset_id = w.asset_id && installMatchesName db i software_name)).head? with
          | some current_installation =>
            if !(is_version_vulnerable current_installation.version safe_version) then
              { w with status := .RESOLVED,
                       resolution_notes :=
                         "Software actualizado a versión " ++
                           current_installation.version }
            else w
          | none => w
        else w
      | _, _, _ => w
  else w

/-- The cleanup phase: the loop maps `cleanup_warning` over the warning table
(iterations are independent); the counter counts the saves, i.e. the warnings
that were modified. -/
def cleanup_phase (db : SoftwareDB) (warnings : List ComplianceWarning) :
    List ComplianceWarning × Nat :=
  (warnings.map (cleanup_warning db),
   warnings.countP (fun w => cleanup_warning db w ≠ w))

/-- The detection-phase existence check (`software/version_utils.py:213`):
an open SOFTWARE_VULNERABLE warning for this (asset, vulnerability id) pair,
matched through the JSON path `evidence__vulnerability_id`. -/
def has_open_warning (warnings : List ComplianceWarning)
    (asset_id vulnerability_id : Nat) : Bool :=
  warnings.any (fun w =>
    w.asset_id = asset_id && w.category = "SOFTWARE_VULNERABLE" &&
    evidence_vulnerability_id w.evidence = some vulnerability_id &&
    is_open_status w.status)

/-- The warning created by the detection phase
(`software/version_utils.py:227`). -/
def make_vulnerability_warning (db : SoftwareDB) (next_id : Nat)
    (e : VulnerableEntry) : ComplianceWarning :=
  let software_name := catalogNameD db e.installation.software_id
  let cve_display := if e.vulnerability.cve_id ≠ "" then e.vulnerability.cve_id else "N/A"
  let base_description :=
    "Se detectó software vulnerable: " ++ software_name ++ " versión " ++
      e.installation.version ++ ". Actualizar a versión " ++
      e.vulnerability.safe_version_from ++ " o superior."
  { id := next_id
    asset_id := e.installation.asset_id
    category := "SOFTWARE_VULNERABLE"
    description :=
      if e.vulnerability.cve_id ≠ "" then
        base_description ++ " (CVE: " ++ e.vulnerability.cve_id ++ ")"
      else base_description
    evidence := some (.vulnerability
      { vulnerability_id := some e.vulnerability.id
        software_name := some software_name
        installed_version := some e.installation.version
        safe_version := some e.vulnerability.safe_version_from
        severity := some e.vulnerability.severity
        cve_id := some cve_display
        vulnerability_title := some e.vulnerability.title })
    status := .NEW
    resolution_notes := "" }

/-- One iteration of the detection loop: skip if an open warning for the
(asset, vulnerability id) pair already exists in the CURRENT warning table
(creations earlier in the same loop included), else create. -/
def detection_step (db : SoftwareDB) (acc : List ComplianceWarning × Nat × Nat)
    (e : VulnerableEntry) : List ComplianceWarning × Nat × Nat :=
  if has_open_warning acc.1 e.installation.asset_id e.vulnerability.id then acc
  else
    (acc.1 ++ [make_vulnerability_warning db acc.2.1 e], acc.2.1 + 1, acc.2.2 + 1)

/-- The detection phase (`software/version_utils.py:204`): fold the detection
step over the scan result. -/
def detection_phase (db : SoftwareDB) (warnings : List ComplianceWarning)
    (next_id : Nat) : List ComplianceWarning × Nat × Nat :=
  (get_vulnerable_installations db).foldl (detection_step db) (warnings, next_id, 0)

/-- The return value of `generate_vulnerability_warnings`, plus the resulting
warning table and id sequence. -/
structure GenerateOutcome where
  warnings : List ComplianceWarning
  next_id : Nat
  warnings_created : Nat
  warnings_cleaned : Nat
deriving DecidableEq

/-- `generate_vulnerability_warnings` (`software/version_utils.py:141`):
cleanup phase, then detection phase. -/
def generate_vulnerability_warnings (db : SoftwareDB)
    (warnings : List ComplianceWarning) (next_id : Nat) : GenerateOutcome :=
  let cleaned := cleanup_phase db warnings
  let detected := detection_phase db cleaned.1 next_id
  { warnings := detected.1
    next_id := detected.2.1
    warnings_created := detected.2.2
    warnings_cleaned := cleaned.2 }

/-! ## Claims C4 and C5 -/

/--
Claim C4, counterexample.  Two catalog entries may share a name with
different developers.  State: asset 1 has `Foo (DevB) 9.0` (listed first) and
`Foo (DevA) 1.0` installed; vulnerability 1 covers `Foo (DevA)` with safe
version `2.0`.  The first run creates one warning for (asset 1, vuln 1).  The
second run's cleanup re-checks that warning by software NAME only
(`software/version_utils.py:190`), finds the DevB installation `9.0` first,
wrongly RESOLVES the warning, and detection then re-creates it:
`warnings_created = 1 ≠ 0` on the second run with no intervening state
change.
-/
theorem claim_C4_counterexample :
    (generate_vulnerability_warnings
      ⟨[⟨1, "Foo", "DevA"⟩, ⟨2, "Foo", "DevB"⟩],
       [⟨1, 1, 2, "9.0", none, none⟩, ⟨2, 1, 1, "1.0", none, none⟩],
       [⟨1, 1, "CVE-1", "T", "HIGH", "2.0"⟩]⟩ [] 10).warnings_created = 1 ∧
    (generate_vulnerability_warnings
      ⟨[⟨1, "Foo", "DevA"⟩, ⟨2, "Foo", "DevB"⟩],
       [⟨1, 1, 2, "9.0", none, none⟩, ⟨2, 1, 1, "1.0", none, none⟩],
       [⟨1, 1, "CVE-1", "T", "HIGH", "2.0"⟩]⟩
      (generate_vulnerability_warnings
        ⟨[⟨1, "Foo", "DevA"⟩, ⟨2, "Foo", "DevB"⟩],
         [⟨1, 1, 2, "9.0", none, none⟩, ⟨2, 1, 1, "1.0", none, none⟩],
         [⟨1, 1, "CVE-1", "T", "HIGH", "2.0"⟩]⟩ [] 10).warnings
      (generate_vulnerability_warnings
        ⟨[⟨1, "Foo", "DevA"⟩, ⟨2, "Foo", "DevB"⟩],
         [⟨1, 1, 2, "9.0", none, none⟩, ⟨2, 1, 1, "1.0", none, none⟩],
         [⟨1, 1, "CVE-1", "T", "HIGH", "2.0"⟩]⟩ [] 10).next_id).warnings_created
      = 1 := by
  refine ⟨by decide, by decide⟩

/--
Claim C5, counterexample.  An open SOFTWARE_VULNERABLE warning whose
evidence records a still-existing vulnerability with complete
software-name/installed-version/safe-version fields, on an asset whose
matching installation row has been REMOVED (`installations = []`): the
cleanup loop's `if current_installation:` guard fails and the warning stays
NEW — it is NOT transitioned to RESOLVED as the claim states.
-/
theorem claim_C5_counterexample :
    cleanup_phase
      ⟨[⟨1, "Foo", "DevA"⟩], [], [⟨1, 1, "CVE-1", "T", "HIGH", "2.0"⟩]⟩
      [⟨5, 1, "SOFTWARE_VULNERABLE", "d",
        some (.vulnerability ⟨some 1, some "Foo", some "1.0", some "2.0",
                              some "HIGH", some "CVE-1", some "T"⟩),
        .NEW, ""⟩] =
      ([⟨5, 1, "SOFTWARE_VULNERABLE", "d",
         some (.vulnerability ⟨some 1, some "Foo", some "1.0", some "2.0",
                               some "HIGH", some "CVE-1", some "T"⟩),
         .NEW, ""⟩], 0) := by
  decide

/--
Claim C5 (amended): for every open NEW/IN_REVIEW SOFTWARE_VULNERABLE warning
whose evidence records complete (truthy) software-name, installed-version and
safe-version fields, and which does not hit the FALSE_POSITIVE branch: if the
FIRST installation on the warning's asset whose catalog name matches the
recorded software name exists and its current version is no longer vulnerable
relative to the recorded safe version, one cleanup pass transitions the
warning to RESOLVED (with a non-empty resolution note); if no such
installation exists (e.g. the installation row was removed), the warning is
left unchanged — removal does NOT resolve it.
-/
theorem claim_C5_cleanup_resolution_amended (db : SoftwareDB)
    (w : ComplianceWarning)
    (software_name installed_version safe_version : String)
    (hcat : w.category = "SOFTWARE_VULNERABLE")
    (hopen : is_open_status w.status = true)
    (hsn : evidence_software_name w.evidence = some software_name)
    (hiv : evidence_installed_version w.evidence = some installed_version)
    (hsv : evidence_safe_version w.evidence = some safe_version)
    (hne1 : software_name ≠ "") (hne2 : installed_version ≠ "")
    (hne3 : safe_version ≠ "")
    (hfp : fp_check db w = false) :
    (∀ current_installation,
      (db.installations.filter (fun i =>
          i.asset_id = w.asset_id && installMatchesName db i software_name)).head? =
        some current_installation →
      is_version_vulnerable current_installation.version safe_version = false →
      cleanup_warning db w =
        { w with status := .RESOLVED,
                 resolution_notes :=
                   "Software actualizado a versión " ++
                     current_installation.version }) ∧
    ((db.installations.filter (fun i =>
        i.asset_id = w.asset_id && installMatchesName db i software_name)).head? =
       none →
      cleanup_warning db w = w) := by
  constructor
  · intro current_installation hhead hsafe
    unfold cleanup_warning
    rw [hfp]
    simp only [hcat, hopen, hsn, hiv, hsv, hhead, hsafe]
    simp [hne1, hne2, hne3]
  · intro hhead
    unfold cleanup_warning
    rw [hfp]
    simp only [hcat, hopen, hsn, hiv, hsv, hhead]
    simp [hne1, hne2, hne3]

/-- Projection lemmas for the created warning. -/
theorem make_warning_category (db : SoftwareDB) (nid : Nat) (e : VulnerableEntry) :
    (make_vulnerability_warning db nid e).category = "SOFTWARE_VULNERABLE" := rfl

theorem make_warning_status (db : SoftwareDB) (nid : Nat) (e : VulnerableEntry) :
    (make_vulnerability_warning db nid e).status = .NEW := rfl

theorem make_warning_asset (db : SoftwareDB) (nid : Nat) (e : VulnerableEntry) :
    (make_vulnerability_warning db nid e).asset_id = e.installation.asset_id := rfl

theorem make_warning_vid (db : SoftwareDB) (nid : Nat) (e : VulnerableEntry) :
    evidence_vulnerability_id (make_vulnerability_warning db nid e).evidence =
      some e.vulnerability.id := rfl

theorem make_warning_sn (db : SoftwareDB) (nid : Nat) (e : VulnerableEntry) :
    evidence_software_name (make_vulnerability_warning db nid e).evidence =
      some (catalogNameD db e.installation.software_id) := rfl

theorem make_warning_iv (db : SoftwareDB) (nid : Nat) (e : VulnerableEntry) :
    evidence_installed_version (make_vulnerability_warning db nid e).evidence =
      some e.installation.version := rfl

theorem make_warning_sv (db : SoftwareDB) (nid : Nat) (e : VulnerableEntry) :
    evidence_safe_version (make_vulnerability_warning db nid e).evidence =
      some e.vulnerability.safe_version_from := rfl

/-- Every cleanup iteration either leaves the warning unchanged or moves it
to a closed (RESOLVED / FALSE_POSITIVE) status. -/
theorem cleanup_warning_fixed_or_closed (db : SoftwareDB) (w : ComplianceWarning) :
    cleanup_warning db w = w ∨
      is_open_status (cleanup_warning db w).status = false := by
  unfold cleanup_warning
  split
  · split
    · exact Or.inr rfl
    · split
      all_goals try exact Or.inl rfl
      all_goals split
      all_goals try exact Or.inl rfl
      all_goals split
      all_goals try exact Or.inl rfl
      all_goals split
      all_goals try exact Or.inl rfl
      all_goals exact Or.inr rfl
  · exact Or.inl rfl

/-- An open output of the cleanup step is a fixpoint of the cleanup step. -/
theorem cleanup_warning_open_fix (db : SoftwareDB) (w : ComplianceWarning)
    (h : is_open_status (cleanup_warning db w).status = true) :
    cleanup_warning db w = w := by
  rcases cleanup_warning_fixed_or_closed db w with hfix | hclosed
  · exact hfix
  · rw [hclosed] at h
    cases h

/-- Membership in the vulnerable-installation scan. -/
theorem mem_get_vulnerable_installations (db : SoftwareDB) (e : VulnerableEntry) :
    e ∈ get_vulnerable_installations db ↔
      (e.installation ∈ db.installations ∧ e.installation.version ≠ "" ∧
       e.vulnerability ∈ db.vulnerabilities ∧
       e.vulnerability.software_id = e.installation.software_id ∧
       is_version_vulnerable e.installation.version
         e.vulnerability.safe_version_from = true) := by
  rcases e with ⟨i0, v0⟩
  simp only [get_vulnerable_installations, List.mem_flatMap, List.mem_filter,
    List.mem_filterMap, decide_eq_true_eq]
  constructor
  · rintro ⟨i, ⟨hi, hiv⟩, v, ⟨hv, hvs⟩, hsome⟩
    by_cases hvuln : is_version_vulnerable i.version v.safe_version_from = true
    · rw [if_pos hvuln] at hsome
      injection hsome with h
      injection h with h1 h2
      subst h1
      subst h2
      exact ⟨hi, hiv, hv, hvs, hvuln⟩
    · rw [if_neg hvuln] at hsome
      cases hsome
  · rintro ⟨hi, hiv, hv, hvs, hvuln⟩
    exact ⟨i0, ⟨hi, hiv⟩, v0, ⟨hv, hvs⟩, by rw [if_pos hvuln]⟩

/-- A successful name-join match determines the joined catalog name. -/
theorem installMatchesName_name (db : SoftwareDB) (i : InstalledSoftware)
    (software_name : String) (h : installMatchesName db i software_name = true) :
    catalogNameD db i.software_id = software_name := by
  unfold installMatchesName at h
  unfold catalogNameD
  rcases hf : db.catalogs.find? (fun c => c.id = i.software_id) with _ | c
  · rw [hf] at h
    cases h
  · rw [hf] at h
    rw [hf]
    simp only [decide_eq_true_eq] at h
    simpa using h

/-- An installation with a non-empty joined catalog name matches itself. -/
theorem installMatchesName_self (db : SoftwareDB) (i : InstalledSoftware)
    (h : catalogNameD db i.software_id ≠ "") :
    installMatchesName db i (catalogNameD db i.software_id) = true := by
  unfold catalogNameD at h ⊢
  unfold installMatchesName
  rcases hf : db.catalogs.find? (fun c => c.id = i.software_id) with _ | c
  · rw [hf] at h
    simp at h
  · rw [hf]
    simp

/-- Amended-C4 well-formedness hypothesis: on any one asset, installed
software rows are uniquely identified by their joined catalog name (the
cleanup loop looks installations up by name only). -/
def asset_software_names_unique (db : SoftwareDB) : Prop :=
  ∀ i1 ∈ db.installations, ∀ i2 ∈ db.installations,
    i1.asset_id = i2.asset_id →
    catalogNameD db i1.software_id = catalogNameD db i2.software_id →
    i1 = i2

/-- Under per-asset name uniqueness, the cleanup loop's name-based lookup for
an installation's own catalog name finds exactly that installation. -/
theorem filter_matching_head (db : SoftwareDB)
    (hnames : asset_software_names_unique db)
    (inst : InstalledSoftware) (hinst : inst ∈ db.installations)
    (hname : catalogNameD db inst.software_id ≠ "") :
    (db.installations.filter (fun i =>
        i.asset_id = inst.asset_id &&
        installMatchesName db i (catalogNameD db inst.software_id))).head? =
      some inst := by
  have hpred : (decide (inst.asset_id = inst.asset_id) &&
      installMatchesName db inst (catalogNameD db inst.software_id)) = true := by
    rw [installMatchesName_self db inst hname]
    simp
  have hmem : inst ∈ db.installations.filter (fun i =>
      i.asset_id = inst.asset_id &&
      installMatchesName db i (catalogNameD db inst.software_id)) :=
    List.mem_filter.2 ⟨hinst, hpred⟩
  have hall : ∀ x ∈ db.installations.filter (fun i =>
      i.asset_id = inst.asset_id &&
      installMatchesName db i (catalogNameD db inst.software_id)), x = inst := by
    intro x hx
    obtain ⟨hxmem, hxpred⟩ := List.mem_filter.1 hx
    rw [Bool.and_eq_true] at hxpred
    obtain ⟨hasset, hmatchx⟩ := hxpred
    have hxname : catalogNameD db x.software_id = catalogNameD db inst.software_id :=
      installMatchesName_name db x _ hmatchx
    exact hnames x hxmem inst hinst (by simpa using hasset) hxname
  rcases hfil : db.installations.filter (fun i =>
      i.asset_id = inst.asset_id &&
      installMatchesName db i (catalogNameD db inst.software_id)) with _ | ⟨h, t⟩
  · rw [hfil] at hmem
    cases hmem
  · have hh : h = inst := hall h (by rw [hfil]; exact List.mem_cons_self h t)
    rw [hfil, hh]
    rfl

/-- A warning freshly created by the detection phase for a currently
vulnerable (installation, vulnerability) pair is left untouched by the
cleanup step (under per-asset name uniqueness). -/
theorem cleanup_warning_fixes_created (db : SoftwareDB)
    (hnames : asset_software_names_unique db) (nid : Nat) (e : VulnerableEntry)
    (he : e ∈ get_vulnerable_installations db) :
    cleanup_warning db (make_vulnerability_warning db nid e) =
      make_vulnerability_warning db nid e := by
  obtain ⟨hi, hver, hv, hvs, hvuln⟩ := (mem_get_vulnerable_installations db e).1 he
  have hany : db.vulnerabilities.any (fun v => v.id = e.vulnerability.id) = true :=
    List.any_eq_true.2 ⟨e.vulnerability, hv, by simp⟩
  have hfp : fp_check db (make_vulnerability_warning db nid e) = false := by
    unfold fp_check
    rw [make_warning_vid]
    simp [hany]
  unfold cleanup_warning
  rw [hfp]
  simp only [make_warning_category, make_warning_status, make_warning_asset,
    make_warning_sn, make_warning_iv, make_warning_sv]
  by_cases hname : catalogNameD db e.installation.software_id = ""
  · simp [hname]
  · by_cases hsafe : e.vulnerability.safe_version_from = ""
    · simp [hsafe]
    · rw [filter_matching_head db hnames e.installation hi hname]
      simp [hname, hver, hsafe, hvuln, is_open_status]

/-- `has_open_warning` is monotone under table extension. -/
theorem has_open_warning_mono (l1 l2 : List ComplianceWarning)
    (hsub : ∀ w ∈ l1, w ∈ l2) (asset_id vulnerability_id : Nat)
    (h : has_open_warning l1 asset_id vulnerability_id = true) :
    has_open_warning l2 asset_id vulnerability_id = true := by
  unfold has_open_warning at h ⊢
  rcases List.any_eq_true.1 h with ⟨w, hw, hp⟩
  exact List.any_eq_true.2 ⟨w, hsub w hw, hp⟩

/-- The detection fold only ever appends warnings. -/
theorem detection_foldl_mem (db : SoftwareDB) (l : List VulnerableEntry) :
    ∀ acc : List ComplianceWarning × Nat × Nat, ∀ w ∈ acc.1,
      w ∈ (l.foldl (detection_step db) acc).1 := by
  induction l with
  | nil =>
    intro acc w hw
    simpa using hw
  | cons e t ih =>
    intro acc w hw
    rw [List.foldl_cons]
    apply ih
    unfold detection_step
    split
    · exact hw
    · show w ∈ acc.1 ++ [make_vulnerability_warning db acc.2.1 e]
      exact List.mem_append.2 (Or.inl hw)

/--
Detection-fold invariant: starting from a table whose open warnings are all
cleanup fixpoints, (i) the final table's open warnings are all cleanup
fixpoints, and (ii) every processed vulnerable pair has an open warning in
the final table.
-/
theorem detection_foldl_stable (db : SoftwareDB)
    (hnames : asset_software_names_unique db) :
    ∀ l : List VulnerableEntry,
    (∀ e ∈ l, e ∈ get_vulnerable_installations db) →
    ∀ acc : List ComplianceWarning × Nat × Nat,
    (∀ w ∈ acc.1, is_open_status w.status = true → cleanup_warning db w = w) →
    ((∀ w ∈ (l.foldl (detection_step db) acc).1,
        is_open_status w.status = true → cleanup_warning db w = w) ∧
     (∀ e ∈ l, has_open_warning (l.foldl (detection_step db) acc).1
        e.installation.asset_id e.vulnerability.id = true)) := by
  intro l
  induction l with
  | nil =>
    intro _ acc hacc
    exact ⟨by simpa using hacc, by simp⟩
  | cons e t ih =>
    intro hl acc hacc
    have he : e ∈ get_vulnerable_installations db := hl e (List.mem_cons_self e t)
    have hstep_stable : ∀ w ∈ (detection_step db acc e).1,
        is_open_status w.status = true → cleanup_warning db w = w := by
      intro w hw
      unfold detection_step at hw
      split at hw
      · exact hacc w hw
      · have hw' : w ∈ acc.1 ++ [make_vulnerability_warning db acc.2.1 e] := hw
        rcases List.mem_append.1 hw' with h1 | h2
        · exact hacc w h1
        · have hweq : w = make_vulnerability_warning db acc.2.1 e := by simpa using h2
          subst hweq
          intro _
          exact cleanup_warning_fixes_created db hnames acc.2.1 e he
    have hstep_open : has_open_warning (detection_step db acc e).1
        e.installation.asset_id e.vulnerability.id = true := by
      unfold detection_step
      split
      case isTrue h => exact h
      case isFalse h =>
        show has_open_warning (acc.1 ++ [make_vulnerability_warning db acc.2.1 e]) _ _ =
          true
        unfold has_open_warning
        refine List.any_eq_true.2 ⟨make_vulnerability_warning db acc.2.1 e,
          List.mem_append.2 (Or.inr (by simp)), ?_⟩
        rw [make_warning_asset, make_warning_category, make_warning_vid,
           make_warning_status]
        simp [is_open_status]
    obtain ⟨hfin_stable, hfin_open⟩ :=
      ih (fun e' he' => hl e' (List.mem_cons_of_mem _ he'))
        (detection_step db acc e) hstep_stable
    refine ⟨?_, ?_⟩
    · rw [List.foldl_cons]
      exact hfin_stable
    · intro e' he'
      rcases List.mem_cons.1 he' with rfl | hmem
      · rw [List.foldl_cons]
        exact has_open_warning_mono _ _ (detection_foldl_mem db t _) _ _ hstep_open
      · rw [List.foldl_cons]
        exact hfin_open e' hmem

/-- When every scanned pair already has an open warning, the detection fold
is the identity (nothing is created). -/
theorem detection_foldl_no_create (db : SoftwareDB) :
    ∀ (l : List VulnerableEntry) (acc : List ComplianceWarning × Nat × Nat),
    (∀ e ∈ l, has_open_warning acc.1 e.installation.asset_id e.vulnerability.id = true) →
    l.foldl (detection_step db) acc = acc := by
  intro l
  induction l with
  | nil =>
    intro acc _
    rfl
  | cons e t ih =>
    intro acc hacc
    rw [List.foldl_cons]
    have hstep : detection_step db acc e = acc := by
      unfold detection_step
      rw [if_pos (hacc e (List.mem_cons_self e t))]
    rw [hstep]
    exact ih acc (fun e' he' => hacc e' (List.mem_cons_of_mem _ he'))

/--
Claim C4 (amended): for every database state in which, on each asset, the
installed software rows are uniquely identified by their catalog name
(`asset_software_names_unique` — the cleanup loop re-checks evidence by
software NAME only), running `generate_vulnerability_warnings` twice in
succession with no intervening state change creates zero additional warnings
on the second run (`warnings_created = 0`): no new warning is created for an
(asset, vulnerability id) pair that already has an open NEW/IN_REVIEW
warning.  Without that uniqueness the property fails
(`claim_C4_counterexample`).
-/
theorem claim_C4_idempotence_amended (db : SoftwareDB)
    (warnings : List ComplianceWarning) (next_id : Nat)
    (hnames : asset_software_names_unique db) :
    (generate_vulnerability_warnings db
      (generate_vulnerability_warnings db warnings next_id).warnings
      (generate_vulnerability_warnings db warnings next_id).next_id).warnings_created
      = 0 := by
  have hstable0 : ∀ w ∈ (cleanup_phase db warnings).1,
      is_open_status w.status = true → cleanup_warning db w = w := by
    intro w hw hopen
    obtain ⟨w0, _, rfl⟩ := List.mem_map.1 (by simpa [cleanup_phase] using hw)
    have hfix : cleanup_warning db w0 = w0 := cleanup_warning_open_fix db w0 hopen
    rw [hfix]
    exact hfix
  obtain ⟨hstable1, hopen1⟩ :=
    detection_foldl_stable db hnames (get_vulnerable_installations db)
      (fun e he => he) ((cleanup_phase db warnings).1, next_id, 0) hstable0
  have hw1 : (generate_vulnerability_warnings db warnings next_id).warnings =
      ((get_vulnerable_installations db).foldl (detection_step db)
        ((cleanup_phase db warnings).1, next_id, 0)).1 := rfl
  have hopen2 : ∀ e ∈ get_vulnerable_installations db,
      has_open_warning
        (cleanup_phase db (generate_vulnerability_warnings db warnings next_id).warnings).1
        e.installation.asset_id e.vulnerability.id = true := by
    intro e he
    have h1 : has_open_warning (generate_vulnerability_warnings db warnings next_id).warnings
        e.installation.asset_id e.vulnerability.id = true := by
      rw [hw1]
      exact hopen1 e he
    unfold has_open_warning at h1
    rcases List.any_eq_true.1 h1 with ⟨w, hwmem, hwpred⟩
    have hwopen : is_open_status w.status = true := by
      have hsplit := hwpred
      simp only [Bool.and_eq_true] at hsplit
      exact hsplit.2
    have hwfix : cleanup_warning db w = w :=
      hstable1 w (by rw [← hw1]; exact hwmem) hwopen
    unfold has_open_warning
    refine List.any_eq_true.2 ⟨w, ?_, hwpred⟩
    show w ∈ (cleanup_phase db (generate_vulnerability_warnings db warnings next_id).warnings).1
    simp only [cleanup_phase]
    exact hwfix ▸ List.mem_map_of_mem (cleanup_warning db) hwmem
  have hfold2 := detection_foldl_no_create db (get_vulnerable_installations db)
      ((cleanup_phase db (generate_vulnerability_warnings db warnings next_id).warnings).1,
       (generate_vulnerability_warnings db warnings next_id).next_id, 0)
      (fun e he => hopen2 e he)
  show ((get_vulnerable_installations db).foldl (detection_step db)
      ((cleanup_phase db (generate_vulnerability_warnings db warnings next_id).warnings).1,
       (generate_vulnerability_warnings db warnings next_id).next_id, 0)).2.2 = 0
  rw [hfold2]

/-- Closed instantiation of `claim_C4_idempotence_amended` on a state with a
currently vulnerable installation and per-asset-unique software names: the
first run creates the warning, the second creates nothing. -/
theorem claim_C4_idempotence_amended_witness :
    (generate_vulnerability_warnings
      ⟨[⟨1, "Foo", "DevA"⟩], [⟨1, 1, 1, "1.0", none, none⟩],
       [⟨1, 1, "CVE-1", "T", "HIGH", "2.0"⟩]⟩
      (generate_vulnerability_warnings
        ⟨[⟨1, "Foo", "DevA"⟩], [⟨1, 1, 1, "1.0", none, none⟩],
         [⟨1, 1, "CVE-1", "T", "HIGH", "2.0"⟩]⟩ [] 10).warnings
      (generate_vulnerability_warnings
        ⟨[⟨1, "Foo", "DevA"⟩], [⟨1, 1, 1, "1.0", none, none⟩],
         [⟨1, 1, "CVE-1", "T", "HIGH", "2.0"⟩]⟩ [] 10).next_id).warnings_created
      = 0 :=
  claim_C4_idempotence_amended
    ⟨[⟨1, "Foo", "DevA"⟩], [⟨1, 1, 1, "1.0", none, none⟩],
     [⟨1, 1, "CVE-1", "T", "HIGH", "2.0"⟩]⟩ [] 10
    (by unfold asset_software_names_unique; decide)

/-- Closed instantiation of `claim_C5_cleanup_resolution_amended`: updating
the installation past the safe threshold resolves the warning; removing the
installation leaves it open. -/
theorem claim_C5_cleanup_resolution_amended_witness :
    cleanup_warning
      ⟨[⟨1, "Foo", "DevA"⟩], [⟨1, 1, 1, "3.0", none, none⟩],
       [⟨1, 1, "CVE-1", "T", "HIGH", "2.0"⟩]⟩
      ⟨5, 1, "SOFTWARE_VULNERABLE", "d",
       some (.vulnerability ⟨some 1, some "Foo", some "1.0", some "2.0",
                             some "HIGH", some "CVE-1", some "T"⟩), .NEW, ""⟩ =
      ⟨5, 1, "SOFTWARE_VULNERABLE", "d",
       some (.vulnerability ⟨some 1, some "Foo", some "1.0", some "2.0",
                             some "HIGH", some "CVE-1", some "T"⟩), .RESOLVED,
       "Software actualizado a versión " ++ "3.0"⟩ ∧
    cleanup_warning
      ⟨[⟨1, "Foo", "DevA"⟩], [], [⟨1, 1, "CVE-1", "T", "HIGH", "2.0"⟩]⟩
      ⟨5, 1, "SOFTWARE_VULNERABLE", "d",
       some (.vulnerability ⟨some 1, some "Foo", some "1.0", some "2.0",
                             some "HIGH", some "CVE-1", some "T"⟩), .NEW, ""⟩ =
      ⟨5, 1, "SOFTWARE_VULNERABLE", "d",
       some (.vulnerability ⟨some 1, some "Foo", some "1.0", some "2.0",
                             some "HIGH", some "CVE-1", some "T"⟩), .NEW, ""⟩ := by
  refine ⟨(claim_C5_cleanup_resolution_amended
      ⟨[⟨1, "Foo", "DevA"⟩], [⟨1, 1, 1, "3.0", none, none⟩],
       [⟨1, 1, "CVE-1", "T", "HIGH", "2.0"⟩]⟩
      ⟨5, 1, "SOFTWARE_VULNERABLE", "d",
       some (.vulnerability ⟨some 1, some "Foo", some "1.0", some "2.0",
                             some "HIGH", some "CVE-1", some "T"⟩), .NEW, ""⟩
      "Foo" "1.0" "2.0" rfl rfl rfl rfl rfl (by decide) (by decide) (by decide)
      (by decide)).1 ⟨1, 1, 1, "3.0", none, none⟩ (by decide) (by decide),
    (claim_C5_cleanup_resolution_amended
      ⟨[⟨1, "Foo", "DevA"⟩], [], [⟨1, 1, "CVE-1", "T", "HIGH", "2.0"⟩]⟩
      ⟨5, 1, "SOFTWARE_VULNERABLE", "d",
       some (.vulnerability ⟨some 1, some "Foo", some "1.0", some "2.0",
                             some "HIGH", some "CVE-1", some "T"⟩), .NEW, ""⟩
      "Foo" "1.0" "2.0" rfl rfl rfl rfl rfl (by decide) (by decide) (by decide)
      (by decide)).2 (by decide)⟩

/-! ## Agent hardware-report ingestion (`auditing/views.py:351`,
`auditing/serializers.py:156`) -/

/-- `pre.data.isPrefixOf s.data` — Python `str.startswith`. -/
def strStartsWith (s pre : String) : Bool :=
  pre.data.isPrefixOf s.data

/-- Python `s[-n:]`: the last `n` characters (the whole string when
shorter). -/
def strTakeRight (s : String) (n : Nat) : String :=
  String.mk (s.data.drop (s.data.length - n))

/-- `f"{n:04d}"` for `n : Nat`. -/
def pad4 (n : Nat) : String :=
  let s := toString n
  if s.length < 4 then String.mk (List.replicate (4 - s.length) '0') ++ s else s

/-- `str(x)` of an optional numeric column (`str(None) = "None"`; the float
repr is approximated by the rational's). -/
def pyOptNumStr (q : Option ℚ) : String :=
  match q with
  | some r => toString r
  | none => "None"

/-- Item of `almacenamiento` (`AgentStorageDeviceSerializer`,
`auditing/serializers.py:170`); `none` models a missing required key. -/
structure AgentStorageItem where
  modelo : String
  numero_serie : String
  capacidad_gb : Option ℚ
  espacio_libre_gb : Option ℚ
deriving DecidableEq

/-- `AgentMotherboardSerializer`. -/
structure AgentMotherboard where
  fabricante : String
  modelo : String
deriving DecidableEq

/-- `AgentOSSerializer`. -/
structure AgentOS where
  nombre : String
  version : String
  arquitectura : String
deriving DecidableEq

/-- `AgentHardwareSerializer`. -/
structure AgentHardware where
  identificador_unico : String
  cpu : String
  memoria_ram_gb : Option ℚ
  placa_base : AgentMotherboard
  tipo_chassis : Option Int
  almacenamiento : List AgentStorageItem
  gpus : List String
deriving DecidableEq

/-- `AgentSoftwareSerializer` (optional fields may be absent). -/
structure AgentSoftwareItem where
  nombre : String
  desarrollador : Option String
  version : Option String
deriving DecidableEq

/-- `AgentSuspiciousSoftwareSerializer`. -/
structure AgentSuspiciousItem where
  nombre : String
  ruta_instalacion : String
  razon_sospecha : String
  desarrollador : Option String
  version : Option String
  evidencia : Option String
deriving DecidableEq

/-- `AgentHardwareReportSerializer`: the whole request body. -/
structure AgentReportPayload where
  sistema_operativo : AgentOS
  hardware : AgentHardware
  software_instalado : Option (List AgentSoftwareItem)
  software_sospechoso : Option (List AgentSuspiciousItem)
deriving DecidableEq

/-- A required `CharField` (no `allow_blank`): present, non-empty, within
`max_length`. -/
def charfield_ok (s : String) (max_length : Nat) : Bool :=
  s ≠ "" && s.length ≤ max_length

def storage_item_valid (it : AgentStorageItem) : Bool :=
  charfield_ok it.modelo 255 && charfield_ok it.numero_serie 255 &&
  it.capacidad_gb.isSome && it.espacio_libre_gb.isSome

def software_item_valid (it : AgentSoftwareItem) : Bool :=
  charfield_ok it.nombre 255 &&
  (match it.desarrollador with | some d => d.length ≤ 255 | none => true) &&
  (match it.version with | some v => v.length ≤ 100 | none => true)

def suspicious_item_valid (it : AgentSuspiciousItem) : Bool :=
  charfield_ok it.nombre 255 && charfield_ok it.ruta_instalacion 500 &&
  charfield_ok it.razon_sospecha 500 &&
  (match it.desarrollador with | some d => d.length ≤ 255 | none => true) &&
  (match it.version with | some v => v.length ≤ 100 | none => true)

def os_payload_valid (o : AgentOS) : Bool :=
  charfield_ok o.nombre 255 && charfield_ok o.version 100 &&
  charfield_ok o.arquitectura 50

def hardware_payload_valid (h : AgentHardware) : Bool :=
  charfield_ok h.identificador_unico 255 && charfield_ok h.cpu 255 &&
  h.memoria_ram_gb.isSome && charfield_ok h.placa_base.fabricante 255 &&
  charfield_ok h.placa_base.modelo 255 &&
  h.almacenamiento.all storage_item_valid &&
  h.gpus.all (fun g => charfield_ok g 255)

/-- `AgentHardwareReportSerializer(data=request.data).is_valid()`. -/
def report_is_valid (p : AgentReportPayload) : Bool :=
  os_payload_valid p.sistema_operativo && hardware_payload_valid p.hardware &&
  (match p.software_instalado with
   | some l => l.all software_item_valid
   | none => true) &&
  (match p.software_sospechoso with
   | some l => l.all suspicious_item_valid
   | none => true)

/-- The database state touched by ingestion.  `seq` is the next
auto-increment id (one sequence models id allocation for every table). -/
structure IngestDB where
  assets : List Asset
  computer_details : List ComputerDetail
  storage_devices : List StorageDevice
  graphics_cards : List GraphicsCard
  catalogs : List SoftwareCatalog
  installations : List InstalledSoftware
  warnings : List ComplianceWarning
  seq : Nat
deriving DecidableEq

/-- The endpoint's response: 400 on schema-invalid payload, 200 with the
result body on success, 500 on any exception inside the transaction. -/
inductive AgentReportOutcome
  | bad_request
  | ok (asset_created : Bool) (asset_id : Nat) (inventory_code : String)
      (warnings_generated : Nat) (changes_detected : List String)
  | server_error (message : String)
deriving DecidableEq

/-- Win32_SystemEnclosure chassis codes classified as laptops
(`auditing/views.py:466`). -/
def LAPTOP_CHASSIS_TYPES : List Int := [8, 9, 10, 11, 14, 18, 21, 31, 32]

/-- Chassis codes classified as desktops (`auditing/views.py:468`). -/
def DESKTOP_CHASSIS_TYPES : List Int := [3, 4, 5, 6, 7, 15, 35]

/--
Hardware-change diffing of step 1 of `agent_hardware_report`
(`auditing/views.py:439`): the previous CPU model, RAM and OS name are
compared against the incoming values (only these three fields).
-/
def detect_hardware_changes (computer_detail : ComputerDetail)
    (hardware_data : AgentHardware) (os_data : AgentOS) : List String :=
  (if computer_detail.cpu_model ≠ hardware_data.cpu then
    ["CPU changed from '" ++ computer_detail.cpu_model ++ "' to '" ++
      hardware_data.cpu ++ "'"]
   else []) ++
  (if computer_detail.ram_gb ≠ hardware_data.memoria_ram_gb then
    ["RAM changed from " ++ pyOptNumStr computer_detail.ram_gb ++ "GB to " ++
      pyOptNumStr hardware_data.memoria_ram_gb ++ "GB"]
   else []) ++
  (if computer_detail.os_name ≠ os_data.nombre then
    ["OS changed from '" ++ computer_detail.os_name ++ "' to '" ++
      os_data.nombre ++ "'"]
   else [])

/--
Step 1 of the ingestion transaction (`auditing/views.py:432`): resolve the
asset by the stable hardware identifier.  `ComputerDetail.objects.get` raises
on more than one match; on no match a new asset and an empty `ComputerDetail`
are created (chassis classification, sequential inventory code, brand from
the motherboard manufacturer, serial from the identifier's last 12
characters), raising an `IntegrityError` if the generated inventory code or
serial collides.  Returns (asset, state, asset_created, changes_detected).
-/
def resolve_report_asset (p : AgentReportPayload) (db : IngestDB) :
    Except String (Asset × IngestDB × Bool × List String) :=
  let hardware_data := p.hardware
  let uid := hardware_data.identificador_unico
  match db.computer_details.filter (fun cd => cd.unique_identifier = uid) with
  | [computer_detail] =>
    match db.assets.find? (fun a => a.id = computer_detail.asset_id) with
    | none => .error "broken foreign key: ComputerDetail.asset"
    | some asset =>
      .ok (asset, db, false,
        detect_hardware_changes computer_detail hardware_data p.sistema_operativo)
  | [] =>
    let tp :=
      match hardware_data.tipo_chassis with
      | some chassis_type =>
        if LAPTOP_CHASSIS_TYPES.contains chassis_type then ("NOTEBOOK", "UPLA-NO-")
        else if DESKTOP_CHASSIS_TYPES.contains chassis_type then
          ("DESKTOP", "UPLA-DE-")
        else ("DESKTOP", "UPLA-DE-")
      | none => ("DESKTOP", "UPLA-DE-")
    let existing_count := db.assets.countP (fun a => strStartsWith a.inventory_code tp.2)
    let inventory_code := tp.2 ++ pad4 (existing_count + 1)
    let serial_number := "AGENT-" ++ strTakeRight uid 12
    if db.assets.any (fun a =>
        a.inventory_code = inventory_code || a.serial_number = serial_number) then
      .error "IntegrityError: assets_asset unique constraint"
    else if db.computer_details.any (fun cd => cd.asset_id = db.seq) then
      .error "IntegrityError: assets_computerdetail primary key"
    else
      let asset : Asset := ⟨db.seq, inventory_code, serial_number, tp.1,
        "BODEGA", hardware_data.placa_base.fabricante,
        hardware_data.placa_base.modelo, none, none⟩
      let cd0 : ComputerDetail := ⟨asset.id, "", "", "", "", "", none, "", "", none⟩
      .ok (asset,
        { db with assets := db.assets ++ [asset]
                  computer_details := db.computer_details ++ [cd0]
                  seq := db.seq + 1 },
        true, [])
  | _ => .error "MultipleObjectsReturned: ComputerDetail"

/--
Step 4 of the ingestion transaction (`auditing/views.py:540`): replace the
asset's installed software with the incoming list — delete all existing
installations, then find-or-create each catalog entry by (name, developer)
and insert a fresh installation row (license always unset).  Duplicate
payload items raise an `IntegrityError` on the (asset, software) uniqueness.
-/
def apply_software_list (now : Nat) (asset_id : Nat)
    (items : List AgentSoftwareItem) (db : IngestDB) : Except String IngestDB :=
  items.foldlM (fun dbx item => do
    let software_name := item.nombre
    let software_developer := (item.desarrollador).getD "Unknown"
    let software_version := (item.version).getD ""
    let (software_catalog, dby) ←
      match dbx.catalogs.filter (fun c =>
          c.name = software_name && c.developer = software_developer) with
      | [c] => pure (c, dbx)
      | [] =>
        let c : SoftwareCatalog := ⟨dbx.seq, software_name, software_developer⟩
        pure (c, { dbx with catalogs := dbx.catalogs ++ [c], seq := dbx.seq + 1 })
      | _ => throw "MultipleObjectsReturned: SoftwareCatalog"
    if dby.installations.any (fun i =>
        i.asset_id = asset_id && i.software_id = software_catalog.id) then
      throw "IntegrityError: software_installedsoftware unique constraint"
    else
      pure { dby with
        installations := dby.installations ++
          [⟨dby.seq, asset_id, software_catalog.id, software_version, some now,
            none⟩]
        seq := dby.seq + 1 })
    { db with installations := db.installations.filter (fun i => i.asset_id ≠ asset_id) }

/--
The transaction body of `agent_hardware_report` (`auditing/views.py:430` —
everything inside `with transaction.atomic():`).  `.error` models a raised
exception.  Notably, the created `StorageDevice` rows do NOT receive the
validated `espacio_libre_gb` value: `free_space_gb` is left `None`
(`auditing/views.py:524`).
-/
def ingest_report (now : Nat) (p : AgentReportPayload) (db : IngestDB) :
    Except String (IngestDB × AgentReportOutcome) := do
  let hardware_data := p.hardware
  let os_data := p.sistema_operativo
  let software_data := (p.software_instalado).getD []
  let suspicious_data := (p.software_sospechoso).getD []
  let uid := hardware_data.identificador_unico
  let (asset, db1, asset_created, changes_detected) ← resolve_report_asset p db
  -- step 2: snapshot overwrite of ComputerDetail
  let db2 := { db1 with computer_details := db1.computer_details.map (fun (cd : ComputerDetail) =>
    if cd.asset_id = asset.id then
      { cd with cpu_model := hardware_data.cpu
                ram_gb := hardware_data.memoria_ram_gb
                os_name := os_data.nombre
                os_version := os_data.version
                os_arch := os_data.arquitectura
                unique_identifier := uid
                motherboard_manufacturer := hardware_data.placa_base.fabricante
                motherboard_model := hardware_data.placa_base.modelo
                last_updated_by_agent := some now }
    else cd) }
  -- step 3: full replacement of storage devices and graphics cards
  let storage_rows := hardware_data.almacenamiento.mapIdx (fun idx it =>
    (⟨db2.seq + idx, asset.id, it.modelo, it.numero_serie, it.capacidad_gb,
      none⟩ : StorageDevice))
  let db3 := { db2 with
    storage_devices :=
      db2.storage_devices.filter (fun (sd : StorageDevice) => sd.asset_id ≠ asset.id) ++ storage_rows
    seq := db2.seq + hardware_data.almacenamiento.length }
  let gpu_rows := hardware_data.gpus.mapIdx (fun idx g =>
    (⟨db3.seq + idx, asset.id, g⟩ : GraphicsCard))
  let db4 := { db3 with
    graphics_cards :=
      db3.graphics_cards.filter (fun (gc : GraphicsCard) => gc.asset_id ≠ asset.id) ++ gpu_rows
    seq := db3.seq + hardware_data.gpus.length }
  -- step 4: conditional full replacement of installed software
  let db5 ←
    if software_data ≠ [] then apply_software_list now asset.id software_data db4
    else pure db4
  -- step 5: warnings for suspicious software and hardware changes
  let susp_warnings := suspicious_data.mapIdx (fun idx sw =>
    (⟨db5.seq + idx, asset.id, "Software Ilegal/No Autorizado",
      "Software sospechoso detectado: " ++ sw.nombre ++ " (" ++
        sw.razon_sospecha ++ ")",
      some (.suspiciousSoftware ⟨sw.nombre, sw.ruta_instalacion, sw.razon_sospecha,
        (sw.desarrollador).getD "Unknown", (sw.version).getD "Unknown",
        sw.evidencia⟩),
      .NEW, ""⟩ : ComplianceWarning))
  let db6 := { db5 with
    warnings := db5.warnings ++ susp_warnings
    seq := db5.seq + suspicious_data.length }
  let change_warnings := changes_detected.mapIdx (fun idx change =>
    (⟨db6.seq + idx, asset.id, "Hardware Change",
      "Cambio detectado por agente: " ++ change,
      some (.hardwareChange change), .NEW, ""⟩ : ComplianceWarning))
  let db7 := { db6 with
    warnings := db6.warnings ++ change_warnings
    seq := db6.seq + changes_detected.length }
  let warnings_generated := suspicious_data.length + changes_detected.length
  pure (db7, .ok asset_created asset.id asset.inventory_code warnings_generated
    changes_detected)

/--
`agent_hardware_report` (`auditing/views.py:351`): schema validation runs
strictly before the transaction opens (invalid → 400, state untouched); the
body runs inside `transaction.atomic()` wrapped in `try`/`except Exception`,
so any exception rolls back to the pre-transaction state and returns 500.
-/
def agent_hardware_report (now : Nat) (p : AgentReportPayload) (db : IngestDB) :
    AgentReportOutcome × IngestDB :=
  if !(report_is_valid p) then (.bad_request, db)
  else
    match ingest_report now p db with
    | .ok (db2, outcome) => (outcome, db2)
    | .error e => (.server_error ("Error processing hardware report: " ++ e), db)

/-! ## Claims C3 and C9 -/

/--
Claim C3: payload schema validation runs strictly before the ingestion
transaction opens — a schema-invalid payload is rejected with a client error
(400) having mutated nothing; with a valid payload, any exception raised
anywhere inside the transaction rolls back all state (the pre-transaction
database is returned untouched) and is reported as a server-error processing
failure (500); and a successful body commits its state.
-/
theorem claim_C3_validation_and_rollback (now : Nat) (p : AgentReportPayload)
    (db : IngestDB) :
    (report_is_valid p = false →
      agent_hardware_report now p db = (.bad_request, db)) ∧
    (report_is_valid p = true → ∀ e, ingest_report now p db = .error e →
      agent_hardware_report now p db =
        (.server_error ("Error processing hardware report: " ++ e), db)) ∧
    (report_is_valid p = true → ∀ db2 outcome,
      ingest_report now p db = .ok (db2, outcome) →
      agent_hardware_report now p db = (outcome, db2)) := by
  refine ⟨?_, ?_, ?_⟩
  · intro h
    unfold agent_hardware_report
    simp [h]
  · intro hv e he
    unfold agent_hardware_report
    simp [hv, he]
  · intro hv db2 outcome hok
    unfold agent_hardware_report
    simp [hv, hok]

/--
Closed instantiation of `claim_C3_validation_and_rollback`.  A payload with a
blank required `cpu` field is rejected with 400 and the state is unchanged;
a valid payload listing the same software twice raises an `IntegrityError`
inside the transaction (after the asset's storage, GPU and installation
tables were already rewritten by earlier steps) and the endpoint returns 500
with the ENTIRE pre-transaction state restored.
-/
theorem claim_C3_validation_and_rollback_witness :
    agent_hardware_report 99
      { sistema_operativo := ⟨"Microsoft Windows 10", "10.0.19041", "AMD64"⟩
        hardware := ⟨"UUID-123", "", some 8, ⟨"Dell", "B"⟩, none,
          [⟨"Samsung SSD", "S123", some 500, some 20⟩], ["GTX 1650"]⟩
        software_instalado := none
        software_sospechoso := none }
      ⟨[⟨1, "UPLA-DE-0001", "SN-1", "DESKTOP", "BODEGA", "Dell", "X", none, none⟩],
       [⟨1, "UUID-123", "Microsoft Windows 10", "10.0.19041", "64", "i5", some 8,
         "Dell", "B", none⟩],
       [⟨50, 1, "OldDisk", "OS-1", some 100, some 50⟩], [], [], [], [], 100⟩ =
      (.bad_request,
       ⟨[⟨1, "UPLA-DE-0001", "SN-1", "DESKTOP", "BODEGA", "Dell", "X", none, none⟩],
        [⟨1, "UUID-123", "Microsoft Windows 10", "10.0.19041", "64", "i5", some 8,
          "Dell", "B", none⟩],
        [⟨50, 1, "OldDisk", "OS-1", some 100, some 50⟩], [], [], [], [], 100⟩) ∧
    agent_hardware_report 99
      { sistema_operativo := ⟨"Microsoft Windows 10", "10.0.19041", "AMD64"⟩
        hardware := ⟨"UUID-123", "Intel i5", some 8, ⟨"Dell", "B"⟩, none,
          [⟨"Samsung SSD", "S123", some 500, some 20⟩], ["GTX 1650"]⟩
        software_instalado := some [⟨"Chrome", some "Google", some "1.0"⟩,
          ⟨"Chrome", some "Google", some "2.0"⟩]
        software_sospechoso := none }
      ⟨[⟨1, "UPLA-DE-0001", "SN-1", "DESKTOP", "BODEGA", "Dell", "X", none, none⟩],
       [⟨1, "UUID-123", "Microsoft Windows 10", "10.0.19041", "64", "Intel i5",
         some 8, "Dell", "B", none⟩],
       [⟨50, 1, "OldDisk", "OS-1", some 100, some 50⟩], [], [], [], [], 100⟩ =
      (.server_error ("Error processing hardware report: " ++
         "IntegrityError: software_installedsoftware unique constraint"),
       ⟨[⟨1, "UPLA-DE-0001", "SN-1", "DESKTOP", "BODEGA", "Dell", "X", none, none⟩],
        [⟨1, "UUID-123", "Microsoft Windows 10", "10.0.19041", "64", "Intel i5",
          some 8, "Dell", "B", none⟩],
        [⟨50, 1, "OldDisk", "OS-1", some 100, some 50⟩], [], [], [], [], 100⟩) := by
  refine ⟨(claim_C3_validation_and_rollback 99 _ _).1 (by decide),
          (claim_C3_validation_and_rollback 99 _ _).2.1 (by decide) _ (by rfl)⟩

/--
Claim C9: on a successful agent report the asset's StorageDevice (and
GraphicsCard) rows are fully replaced — but the incoming storage list is NOT
inserted verbatim: the validated `espacio_libre_gb` value is dropped and the
new row's `free_space_gb` is `None` (`auditing/views.py:524-529` passes only
`model`, `serial_number` and `capacity_gb` to `StorageDevice.objects.create`).
At the failing input below the payload reports 20 GB free, the old row (id
50) is deleted, and the persisted replacement row carries
`free_space_gb = none`.
-/
theorem claim_C9_free_space_dropped :
    (agent_hardware_report 99
      { sistema_operativo := ⟨"Microsoft Windows 10", "10.0.19041", "AMD64"⟩
        hardware := ⟨"UUID-123", "Intel i5", some 8, ⟨"Dell", "B"⟩, none,
          [⟨"Samsung SSD", "S123", some 500, some 20⟩], ["GTX 1650"]⟩
        software_instalado := none
        software_sospechoso := none }
      ⟨[⟨1, "UPLA-DE-0001", "SN-1", "DESKTOP", "BODEGA", "Dell", "X", none, none⟩],
       [⟨1, "UUID-123", "Microsoft Windows 10", "10.0.19041", "64", "Intel i5",
         some 8, "Dell", "B", none⟩],
       [⟨50, 1, "OldDisk", "OS-1", some 100, some 50⟩], [], [], [], [], 100⟩).2.storage_devices
      = [⟨100, 1, "Samsung SSD", "S123", some 500, none⟩] ∧
    (agent_hardware_report 99
      { sistema_operativo := ⟨"Microsoft Windows 10", "10.0.19041", "AMD64"⟩
        hardware := ⟨"UUID-123", "Intel i5", some 8, ⟨"Dell", "B"⟩, none,
          [⟨"Samsung SSD", "S123", some 500, some 20⟩], ["GTX 1650"]⟩
        software_instalado := none
        software_sospechoso := none }
      ⟨[⟨1, "UPLA-DE-0001", "SN-1", "DESKTOP", "BODEGA", "Dell", "X", none, none⟩],
       [⟨1, "UUID-123", "Microsoft Windows 10", "10.0.19041", "64", "Intel i5",
         some 8, "Dell", "B", none⟩],
       [⟨50, 1, "OldDisk", "OS-1", some 100, some 50⟩], [], [], [], [], 100⟩).1
      = .ok false 1 "UPLA-DE-0001" 0 [] := by
  refine ⟨by rfl, by rfl⟩
